import Mathlib

set_option maxRecDepth 4000

/-!
# Verification of the Rigs-of-Rods relay server Sequencer

A shallow embedding of `sequencer.cpp` (the dispatch pipeline, admission,
ban list, chat history and fan-out policies) together with proofs about the
properties the specification states for it.

The client table is a list of client entries; each entry carries its
broadcaster queue as a list of outbound messages.  Dispatch, admission and
the chat-command handler are translated branch by branch from the source.
-/

namespace RoR

/-! ## Protocol constants

The numeric command values live in the shared protocol header `rornet.h`,
which is not part of this snapshot; only `sequencer.cpp` and collaborators
are.  Only the identity and distinctness of the command numbers matter to
the sequencer logic, so they are modelled as distinct naturals in the order
the specification lists them (spec 4.1). -/

def MSG2_WELCOME : Nat := 1000

def MSG2_FULL : Nat := 1001

def MSG2_BANNED : Nat := 1002

def MSG2_DELETE : Nat := 1003

def MSG2_USER_JOIN : Nat := 1004

def MSG2_USER_LEAVE : Nat := 1005

def MSG2_USER_INFO : Nat := 1006

def MSG2_STREAM_REGISTER : Nat := 1007

def MSG2_STREAM_DATA : Nat := 1008

def MSG2_CHAT : Nat := 1009

def MSG2_PRIVCHAT : Nat := 1010

def MSG2_GAME_CMD : Nat := 1011

def MSG2_VEHICLE_DATA : Nat := 1012

def MSG2_USE_VEHICLE : Nat := 1013

/-- Auth flag bits.  From `rornet.h` (not in the snapshot); the sequencer
only tests the bits with `&`, so they are modelled as distinct powers of
two over {ADMIN, RANKED, MOD, BOT, BANNED} (spec 3, glossary). -/
def AUTH_NONE : Nat := 0

def AUTH_ADMIN : Nat := 1

def AUTH_RANKED : Nat := 2

def AUTH_MOD : Nat := 4

def AUTH_BOT : Nat := 8

def AUTH_BANNED : Nat := 16

/-- Server version string; the literal `VERSION` comes from the build
configuration and its exact contents are immaterial here. -/
def VERSION : String := "RoR server"

/-- Wire size of `client_info_on_join`; the struct layout lives in the
missing protocol header, the exact byte count is immaterial here. -/
def sizeof_client_info_on_join : Nat := 48

/-- Wire size of `stream_register_t`; exact value immaterial (see above). -/
def sizeof_stream_register_t : Nat := 140

/-! ## Data model (`sequencer.h` records as used by `sequencer.cpp`) -/

/-- Client slot status. -/
inductive ClientStatus where
  | FREE
  | BUSY
  | USED
deriving DecidableEq, Repr

/-- `stream_register_t`: one stream registration.  The 128-byte `name`
field is modelled as its list of bytes. -/
structure stream_register_t where
  type : Int
  status : Int
  name : List Nat
deriving DecidableEq, Repr

/-- `stream_traffic_t`: per-stream byte counters. -/
structure stream_traffic_t where
  bandwidthIncoming : Nat
  bandwidthIncomingLastMinute : Nat
  bandwidthIncomingRate : Nat
  bandwidthOutgoing : Nat
  bandwidthOutgoingLastMinute : Nat
  bandwidthOutgoingRate : Nat
deriving DecidableEq, Repr

/-- The zero counters (a `std::map` `operator[]` value-initializes). -/
def stream_traffic_t.zero : stream_traffic_t :=
  ⟨0, 0, 0, 0, 0, 0⟩

/-- `client_info_on_join`: the USER_JOIN / USER_INFO payload. -/
structure client_info_on_join where
  version : Nat
  nickname : String
  authstatus : Nat
  slotid : Nat
  colournum : Nat
deriving DecidableEq, Repr

/-- Last known position; the three floats of the `oob_t` payload are kept
abstractly (their bit patterns), floating point itself is out of scope. -/
structure Vector3 where
  x : Int
  y : Int
  z : Int
deriving DecidableEq, Repr

/-- Payload of a frame, viewed with the type the dispatching branch casts
the raw buffer to.  `raw` stands for bytes no branch interprets. -/
inductive Payload where
  | raw (bytes : List Nat)
  | str (text : String)
  | reg (r : stream_register_t)
  | priv (destuid : Int) (text : String)
  | info (i : client_info_on_join)
  | vpos (p : Vector3) (rest : List Nat)
  | colour (c : Nat)
deriving DecidableEq, Repr

/-- One message sitting in a broadcaster queue (or written directly to a
socket): the five arguments of `Broadcaster::queueMessage` /
`Messaging::sendmessage`. -/
structure OutMessage where
  mtype : Nat
  source : Int
  streamid : Int
  len : Nat
  payload : Payload
deriving DecidableEq, Repr

/-- `client_t`: one entry of the client table.  The owned receiver /
broadcaster / socket are represented by the broadcaster's outbound
`queue` and the socket's peer address `ip_addr`. -/
structure client_t where
  uid : Nat
  status : ClientStatus
  flow : Bool
  initialized : Bool
  nickname : String
  uniqueid : String
  authstate : Nat
  colournumber : Nat
  slotnum : Nat
  vehicle_name : String
  ip_addr : String
  position : Vector3
  streams : List (Nat × stream_register_t)
  streams_traffic : List (Nat × stream_traffic_t)
  queue : List OutMessage
deriving DecidableEq, Repr

/-- A default entry, used only as the `getD` fallback where the C++ code
indexes the table (an out-of-range index there would be undefined
behaviour; it is unreachable in the runs we reason about). -/
def cnull : client_t :=
  ⟨0, ClientStatus.FREE, false, false, "", "", 0, 0, 0, "", "",
   ⟨0, 0, 0⟩, [], [], []⟩

instance : Inhabited client_t := ⟨cnull⟩

/-- `ban_t`: one ban record. -/
structure ban_t where
  uid : Int
  ip : String
  nickname : String
  bannedby_nick : String
  banmsg : String
deriving DecidableEq, Repr

/-- `chat_save_t`: one chat-history record. -/
structure chat_save_t where
  time : String
  nick : String
  source : Nat
  msg : String
deriving DecidableEq, Repr

/-- The Sequencer's mutable state: client table, ban list, chat history,
uid counter, kill queue and the two disconnect statistics. -/
structure SeqState where
  clients : List client_t
  bans : List ban_t
  chathistory : List chat_save_t
  fuid : Nat
  killqueue : List client_t
  connCount : Nat
  connCrash : Nat
deriving DecidableEq, Repr

/-- The state right after `Sequencer::Sequencer()`: empty table, empty ban
list and chat history, `fuid` starts at 1. -/
def initState : SeqState :=
  ⟨[], [], [], 1, [], 0, 0⟩

/-! ## Small list helpers (index maps and association-list maps) -/

/-- Map with the element index, starting the count at `i`. -/
def mapIdxFrom (f : Nat → α → α) (i : Nat) : List α → List α
  | [] => []
  | a :: t => f i a :: mapIdxFrom f (i + 1) t

/-- Map every element together with its index. -/
def mapIdx0 (f : Nat → α → α) (l : List α) : List α :=
  mapIdxFrom f 0 l

/-- Apply `f` to the element at index `i` (no-op when out of range). -/
def listModify (l : List α) (i : Nat) (f : α → α) : List α :=
  mapIdx0 (fun j a => if j = i then f a else a) l

/-- Index of the first element satisfying `p` (the scan loops of
`sequencer.cpp` all search front to back). -/
def findPos (p : α → Bool) : List α → Option Nat
  | [] => none
  | a :: t => if p a then some 0 else (findPos p t).map (· + 1)

/-- Whether an association list contains key `k`. -/
def mapHasKey (m : List (Nat × α)) (k : Nat) : Bool :=
  m.any (fun e => e.1 = k)

/-- `std::map` lookup with the value-initialized default (`operator[]`
on a missing key). -/
def mapGetD (m : List (Nat × α)) (k : Nat) (dflt : α) : α :=
  match m.find? (fun e => e.1 = k) with
  | some e => e.2
  | none => dflt

/-- `std::map` insert-or-assign (`m[k] = v`).  The source's map is keyed
by stream id; iteration order of keys is not relied on by any property we
state, so a new key is appended. -/
def mapSet (m : List (Nat × α)) (k : Nat) (v : α) : List (Nat × α) :=
  if mapHasKey m k then m.map (fun e => if e.1 = k then (k, v) else e)
  else m ++ [(k, v)]

/-- `m[k]` update through `f`, default-constructing a missing entry first
(the `operator[]` semantics used by the traffic accounting). -/
def mapUpd (m : List (Nat × α)) (k : Nat) (dflt : α) (f : α → α) :
    List (Nat × α) :=
  mapSet m k (f (mapGetD m k dflt))

/-! ## C-string helpers

Chat payloads are NUL-terminated byte strings compared with `strcmp` /
`strncmp` and scanned with `sscanf`; they are modelled on the character
list of a `String`. -/

/-- `strncmp(s, p, strlen(p)) == 0`: `p` is a prefix of `s`. -/
def strHasPrefix (s p : String) : Bool :=
  p.data.isPrefixOf s.data

/-- First `n` characters (`strncpy` into an `n`-byte buffer, and the
explicit truncations of `createClient`). -/
def strTake (s : String) (n : Nat) : String :=
  ⟨s.data.take n⟩

/-- Drop the first `n` characters (pointer arithmetic `data + n`). -/
def strDrop (s : String) (n : Nat) : String :=
  ⟨s.data.drop n⟩

/-- `data[0] == c` on a C string (an empty string has NUL there). -/
def strFirstIs (s : String) (c : Char) : Bool :=
  match s.data with
  | [] => false
  | a :: _ => a = c

/-- Numeric value of a digit run. -/
def digitsToNat (ds : List Char) : Nat :=
  ds.foldl (fun a c => a * 10 + (c.toNat - 48)) 0

/-- `sscanf("%d")` on a character list: skip whitespace, optional sign,
then at least one digit. -/
def scanInt (s : List Char) : Option Int :=
  let s := s.dropWhile (fun c => c.isWhitespace)
  match s with
  | '-' :: r =>
    let ds := r.takeWhile (fun c => c.isDigit)
    if ds.isEmpty then none else some (-(digitsToNat ds : Int))
  | '+' :: r =>
    let ds := r.takeWhile (fun c => c.isDigit)
    if ds.isEmpty then none else some (digitsToNat ds)
  | _ =>
    let ds := s.takeWhile (fun c => c.isDigit)
    if ds.isEmpty then none else some (digitsToNat ds)

/-- Rest of the input after `sscanf("%d")` succeeded. -/
def scanIntRest (s : List Char) : List Char :=
  let s := s.dropWhile (fun c => c.isWhitespace)
  match s with
  | '-' :: r => r.dropWhile (fun c => c.isDigit)
  | '+' :: r => r.dropWhile (fun c => c.isDigit)
  | _ => s.dropWhile (fun c => c.isDigit)

/-- `sscanf(s, "%d %s", &n, buf)` as (conversion count, n, buf); the
callers initialize the targets to `-1` and `""`, which are kept on a
failed conversion exactly as `sscanf` leaves them. -/
def scanIntWord (s : String) : Nat × Int × String :=
  match scanInt s.data with
  | none => (0, -1, "")
  | some n =>
    let rest := (scanIntRest s.data).dropWhile (fun c => c.isWhitespace)
    let w := rest.takeWhile (fun c => ¬ c.isWhitespace)
    if w.isEmpty then (1, n, "") else (2, n, ⟨w⟩)

/-- `trim` from `utils.cpp` (file not in the snapshot): strips leading and
trailing whitespace, per its use on `sscanf` `%s` results. -/
def trimStr (s : String) : String :=
  ⟨((s.data.dropWhile (fun c => c.isWhitespace)).reverse.dropWhile
      (fun c => c.isWhitespace)).reverse⟩

/-- Left-pad to width `n` (the `sprintf` right-aligned fields). -/
def padLeft (s : String) (n : Nat) : String :=
  ⟨List.replicate (n - s.data.length) ' ' ++ s.data⟩

/-- Right-pad to width `n` (the `sprintf` left-aligned fields). -/
def padRight (s : String) (n : Nat) : String :=
  ⟨s.data ++ List.replicate (n - s.data.length) ' '⟩

/-- The `A`/`M`/`R`/`B`/`X` auth letters the chat commands print. -/
def authLetters (authstate : Nat) : String :=
  (if authstate &&& AUTH_ADMIN ≠ 0 then "A" else "") ++
  (if authstate &&& AUTH_MOD ≠ 0 then "M" else "") ++
  (if authstate &&& AUTH_RANKED ≠ 0 then "R" else "") ++
  (if authstate &&& AUTH_BOT ≠ 0 then "B" else "") ++
  (if authstate &&& AUTH_BANNED ≠ 0 then "X" else "")

/-- `% 3d`-style formatting of a non-negative number (space flag, then
right-aligned to the width). -/
def cFmtSpaceD (n : Nat) (w : Nat) : String :=
  padLeft (" " ++ toString n) w

/-- `% 3d` on a possibly negative value (the sign replaces the space). -/
def cFmtSpaceDInt (n : Int) (w : Nat) : String :=
  if n < 0 then padLeft (toString n) w else padLeft (" " ++ toString (n.toNat)) w

/-! ## Sequencer operations (translated from `sequencer.cpp`) -/

/-- `Sequencer::getPosfromUid`: first table index carrying `uid`,
`UID_NOT_FOUND` becomes `none`. -/
def getPosfromUid (clients : List client_t) (uid : Nat) : Option Nat :=
  findPos (fun c => c.uid = uid) clients

/-- `getPosfromUid` on a C `int` uid: the implicit `int → unsigned`
conversion makes a negative argument match no (small) live uid. -/
def getPosfromUidInt (clients : List client_t) (uid : Int) : Option Nat :=
  if uid < 0 then none else getPosfromUid clients uid.toNat

/-- `Sequencer::checkNickUnique`: is the nickname already taken? -/
def checkNickUnique (clients : List client_t) (nick : String) : Bool :=
  clients.any (fun c => c.nickname = nick)

/-- The `recheck_col` goto loop of `Sequencer::getFreePlayerColour`:
restart the scan with `col + 1` whenever some client holds `col`.  The
loop always terminates because each restart consumes one of the finitely
many taken colours; the fuel below is proved sufficient
(`getFreePlayerColour` returns the least free colour). -/
def freeColFrom (cols : List Nat) : Nat → Nat → Nat
  | 0, col => col
  | fuel + 1, col => if col ∈ cols then freeColFrom cols fuel (col + 1) else col

/-- `Sequencer::getFreePlayerColour`. -/
def getFreePlayerColour (clients : List client_t) : Nat :=
  freeColFrom (clients.map client_t.colournumber) (clients.length + 1) 0

/-- `Sequencer::isbanned`; the argument is the `const char *` peer
address, `none` standing for a NULL pointer. -/
def isbanned (bans : List ban_t) (ip : Option String) : Bool :=
  match ip with
  | none => false
  | some s => bans.any (fun b => b.ip = s)

/-- `Sequencer::unban`: erase the first ban record whose uid matches;
the flag reports whether one was erased. -/
def unban (st : SeqState) (buid : Int) : SeqState × Bool :=
  match findPos (fun b => b.uid = buid) st.bans with
  | some i => ({ st with bans := st.bans.eraseIdx i }, true)
  | none => (st, false)

/-- `Sequencer::serverSay`: prepend `"SERVER: "` when `stype = 0`, then
enqueue the line as a CHAT frame with source uid −1 to every USED,
flowing client matching `uid` (−1 addressing everyone). -/
def serverSay (st : SeqState) (msg : String) (uid : Int) (stype : Int) : SeqState :=
  let m := if stype = 0 then "SERVER: " ++ msg else msg
  { st with clients := st.clients.map (fun c =>
      if c.status = ClientStatus.USED ∧ c.flow ∧ (uid = -1 ∨ (c.uid : Int) = uid)
      then { c with queue :=
        c.queue ++ [⟨MSG2_CHAT, -1, -1, m.data.length, Payload.str m⟩] }
      else c) }

/-- `Sequencer::disconnect(uid, errormsg, isError)`: enqueue DELETE (on
error) or USER_LEAVE (graceful) to every client — the departing entry is
handed to the kill queue as the same, already-notified object — then
erase it from the table and bump the statistics. -/
def disconnect (st : SeqState) (uid : Nat) (errormsg : String) (isError : Bool) : SeqState :=
  match getPosfromUid st.clients uid with
  | none => st
  | some pos =>
    let mt := if isError then MSG2_DELETE else MSG2_USER_LEAVE
    let srcUid : Int := ((st.clients.getD pos cnull).uid : Int)
    let clients := st.clients.map (fun c =>
      { c with queue := c.queue ++
          [⟨mt, srcUid, 0, errormsg.data.length, Payload.str errormsg⟩] })
    { st with
      clients := clients.eraseIdx pos,
      killqueue := st.killqueue ++ [clients.getD pos cnull],
      connCount := st.connCount + 1,
      connCrash := if isError then st.connCrash + 1 else st.connCrash }

/-- `Sequencer::kick`: both uids must resolve; the reason becomes
`"kicked by <mod>[: <msg>]"`.  The `isError` default of `disconnect` (in
the missing `sequencer.h`) follows spec 4.6: `crashed = false`. -/
def kick (st : SeqState) (kuid : Int) (modUID : Nat) (msg : Option String) :
    SeqState × Bool :=
  match getPosfromUidInt st.clients kuid with
  | none => (st, false)
  | some pos =>
    match getPosfromUid st.clients modUID with
    | none => (st, false)
    | some posMod =>
      let kickmsg := "kicked by " ++ (st.clients.getD posMod cnull).nickname ++
        (match msg with | some m => ": " ++ m | none => "")
      (disconnect st ((st.clients.getD pos cnull).uid) kickmsg false, true)

/-- `Sequencer::ban`: append a ban record built from the target's entry
(fields truncated to their buffer sizes), then kick with
`"banned[: <msg>]"`. -/
def ban (st : SeqState) (buid : Int) (modUID : Nat) (msg : Option String) :
    SeqState × Bool :=
  match getPosfromUidInt st.clients buid with
  | none => (st, false)
  | some pos =>
    match getPosfromUid st.clients modUID with
    | none => (st, false)
    | some posMod =>
      let b : ban_t :=
        { uid := buid,
          ip := strTake (st.clients.getD pos cnull).ip_addr 16,
          nickname := strTake (st.clients.getD pos cnull).nickname 20,
          bannedby_nick := strTake (st.clients.getD posMod cnull).nickname 20,
          banmsg := strTake (msg.getD "") 256 }
      let st := { st with bans := st.bans ++ [b] }
      let tmp := "banned" ++ (match msg with | some m => ": " ++ m | none => "")
      kick st buid modUID (some tmp)

/-- `Sequencer::enableFlow`: set the handshake-complete flag. -/
def enableFlow (st : SeqState) (uid : Nat) : SeqState :=
  match getPosfromUid st.clients uid with
  | none => st
  | some pos =>
    { st with clients := listModify st.clients pos (fun c => { c with flow := true }) }

/-- `Sequencer::sendMOTD`: each line of `motd.txt` (passed in, the file
itself is a collaborator) goes to `uid` as a type-1 server line. -/
def sendMOTD (st : SeqState) (uid : Nat) (lines : List String) : SeqState :=
  lines.foldl (fun (s : SeqState) (line : String) => serverSay s line (uid : Int) 1) st

/-- `Sequencer::notifyAllVehicles(uid, lock)`: for every USED client `C`,
queue `C`'s USER_INFO to `uid`, `uid`'s USER_INFO to `C`, then all of
`C`'s stream registrations to `uid`. -/
def notifyAllVehicles (st : SeqState) (uid : Nat) : SeqState :=
  match getPosfromUid st.clients uid with
  | none => st
  | some pos =>
    let own := st.clients.getD pos cnull
    let info_own : client_info_on_join :=
      ⟨1, strTake own.nickname 20, own.authstate, pos, own.colournumber⟩
    (List.range st.clients.length).foldl (fun (s : SeqState) (i : Nat) =>
      let ci := s.clients.getD i cnull
      if ci.status = ClientStatus.USED then
        let info : client_info_on_join :=
          ⟨1, strTake ci.nickname 20, ci.authstate, ci.slotnum, ci.colournumber⟩
        let s := { s with clients := listModify s.clients pos (fun c =>
          { c with queue := c.queue ++ [(⟨MSG2_USER_INFO, (ci.uid : Int), 0,
              sizeof_client_info_on_join, Payload.info info⟩ : OutMessage)] }) }
        let s := { s with clients := listModify s.clients i (fun c =>
          { c with queue := c.queue ++ [(⟨MSG2_USER_INFO, (own.uid : Int), 0,
              sizeof_client_info_on_join, Payload.info info_own⟩ : OutMessage)] }) }
        { s with clients := listModify s.clients pos (fun c =>
          { c with queue := c.queue ++ ci.streams.map (fun e =>
              (⟨MSG2_STREAM_REGISTER, (ci.uid : Int), (e.1 : Int),
               sizeof_stream_register_t, Payload.reg e.2⟩ : OutMessage)) }) }
      else s) st

/-! ### The chat-command handler (the `if` chain inside the CHAT branch,
lines 928–1038 of the dispatch; one definition per `if` block, applied in
source order by `chatCommands`).  Replies go through `serverSay` to the
command originator. -/

/-- The `!version` handler. -/
def cmdVersion (st : SeqState) (uid : Nat) (data : String) : SeqState :=
  if data = "!version" then serverSay st VERSION (uid : Int) 0 else st

/-- The `!list` handler: one reply line per table entry. -/
def cmdList (st : SeqState) (uid : Nat) (data : String) : SeqState :=
  if data = "!list" then
    let st := serverSay st " uid | auth   | nick                 | vehicle" (uid : Int) 0
    (List.range st.clients.length).foldl (fun (s : SeqState) (i : Nat) =>
      let c := s.clients.getD i cnull
      serverSay s (cFmtSpaceD c.uid 3 ++ " | " ++ padRight (authLetters c.authstate) 6 ++
        " | " ++ padRight c.nickname 20 ++ " | " ++ c.vehicle_name) (uid : Int) 0) st
  else st

/-- The `!bans` handler: one reply line per ban record. -/
def cmdBans (st : SeqState) (uid : Nat) (data : String) : SeqState :=
  if strHasPrefix data "!bans" then
    let st := serverSay st "uid | IP              | nickname             | banned by" (uid : Int) 0
    st.bans.foldl (fun (s : SeqState) (b : ban_t) =>
      serverSay s (cFmtSpaceDInt b.uid 3 ++ " | " ++ padRight b.ip 15 ++ " | " ++
        padRight b.nickname 20 ++ " | " ++ padRight b.bannedby_nick 20) (uid : Int) 0) st
  else st

/-- The `!unban <uid>` handler (note the swapped replies on the result of
`unban`). -/
def cmdUnban (st : SeqState) (pos : Nat) (uid : Nat) (data : String) : SeqState :=
  if strHasPrefix data "!unban" ∧ data.data.length > 7 then
    if (st.clients.getD pos cnull).authstate &&& AUTH_MOD ≠ 0 ∨
       (st.clients.getD pos cnull).authstate &&& AUTH_ADMIN ≠ 0 then
      match scanInt (strDrop data 7).data with
      | none =>
        serverSay (serverSay st "usage: !unban <uid>" (uid : Int) 0)
          "example: !unban 3" (uid : Int) 0
      | some buid =>
        if buid = -1 then
          serverSay (serverSay st "usage: !unban <uid>" (uid : Int) 0)
            "example: !unban 3" (uid : Int) 0
        else
          let r := unban st buid
          if r.2 then serverSay r.1 "ban not removed: error" (uid : Int) 0
          else serverSay r.1 "ban removed" (uid : Int) 0
    else
      serverSay st "You are not authorized to unban people!" (uid : Int) 0
  else st

/-- The `!ban <uid> <message>` handler. -/
def cmdBan (st : SeqState) (pos : Nat) (uid : Nat) (data : String) : SeqState :=
  if strHasPrefix data "!ban " ∧ data.data.length > 5 then
    if (st.clients.getD pos cnull).authstate &&& AUTH_MOD ≠ 0 ∨
       (st.clients.getD pos cnull).authstate &&& AUTH_ADMIN ≠ 0 then
      let r0 := scanIntWord (strDrop data 5)
      let banMsg := trimStr r0.2.2
      if r0.1 ≠ 2 ∨ r0.2.1 = -1 ∨ banMsg.data.length = 0 then
        serverSay (serverSay st "usage: !ban <uid> <message>" (uid : Int) 0)
          "example: !ban 3 swearing" (uid : Int) 0
      else
        let r := ban st r0.2.1 uid (some banMsg)
        if ¬ r.2 then
          serverSay r.1 "kick + ban not successful: uid not found!" (uid : Int) 0
        else r.1
    else
      serverSay st "You are not authorized to ban people!" (uid : Int) 0
  else st

/-- The `!kick <uid> <message>` handler. -/
def cmdKick (st : SeqState) (pos : Nat) (uid : Nat) (data : String) : SeqState :=
  if strHasPrefix data "!kick " ∧ data.data.length > 6 then
    if (st.clients.getD pos cnull).authstate &&& AUTH_MOD ≠ 0 ∨
       (st.clients.getD pos cnull).authstate &&& AUTH_ADMIN ≠ 0 then
      let r0 := scanIntWord (strDrop data 6)
      let kickMsg := trimStr r0.2.2
      if r0.1 ≠ 2 ∨ r0.2.1 = -1 ∨ kickMsg.data.length = 0 then
        serverSay (serverSay st "usage: !kick <uid> <message>" (uid : Int) 0)
          "example: !kick 3 bye!" (uid : Int) 0
      else
        let r := kick st r0.2.1 uid (some kickMsg)
        if ¬ r.2 then
          serverSay r.1 "kick not successful: uid not found!" (uid : Int) 0
        else r.1
    else
      serverSay st "You are not authorized to kick people!" (uid : Int) 0
  else st

/-- All chat command handlers, in source order. -/
def chatCommands (st : SeqState) (pos : Nat) (uid : Nat) (data : String) : SeqState :=
  cmdKick (cmdBan (cmdUnban (cmdBans (cmdList (cmdVersion st uid data) uid data)
    uid data) pos uid data) pos uid data) pos uid data

/-- Append one record to the chat history: pop the front when more than
500 records are present, then push at the back. -/
def chatHistoryPush (hist : List chat_save_t) (r : chat_save_t) : List chat_save_t :=
  (if hist.length > 500 then hist.tail else hist) ++ [r]

/-- The CHAT branch: publish mode 3 by default, 0 for `'!'` commands, a
positive `playerChat` script return overrides both; then the command
handlers run and the record is appended to the history (the entry fields
are read back through the entry index, as the source does). -/
def chatBranch (script : Option (Nat → String → Int)) (st : SeqState) (pos : Nat)
    (uid : Nat) (data : String) (timestr : String) : Int × SeqState :=
  let pm : Int := 3
  let pm := if strFirstIs data '!' then 0 else pm
  let pm := match script with
    | some f =>
      let sp := f (st.clients.getD pos cnull).uid data
      if sp > 0 then sp else pm
    | none => pm
  let st := chatCommands st pos uid data
  let r : chat_save_t :=
    ⟨timestr, (st.clients.getD pos cnull).nickname, (st.clients.getD pos cnull).uid, data⟩
  (pm, { st with chathistory := chatHistoryPush st.chathistory r })

/-- The classification chain of `Sequencer::queueMessage` (everything
before the publish block): returns the publish mode, the updated state
and the payload to fan out (STREAM_REGISTER forwards the munged
registration; the `#if 0` beam branches are compiled out). -/
def classify (script : Option (Nat → String → Int)) (st : SeqState) (pos : Nat)
    (uid : Nat) (mtype : Nat) (streamid : Nat) (payload : Payload) (len : Nat)
    (timestr : String) : Int × SeqState × Payload :=
  if mtype = MSG2_STREAM_DATA then
    let st := if ¬ (st.clients.getD pos cnull).initialized then
        let st := notifyAllVehicles st (st.clients.getD pos cnull).uid
        { st with clients := listModify st.clients pos (fun c => { c with initialized := true }) }
      else st
    (1, st, payload)
  else if mtype = MSG2_STREAM_REGISTER then
    -- the over-20-streams guard only assigns publishMode = 0; the branch
    -- unconditionally overwrites publishMode with 1 at its end, so the
    -- guard's value is dead and the registration is stored regardless
    let _pmDropped : Int :=
      if (st.clients.getD pos cnull).streams.length > 20 then 0 else 0
    match payload with
    | Payload.reg reg =>
      let reg := { reg with
        name := (reg.name.map (fun b => if b = 32 then 0 else b)).set 127 0 }
      let st := { st with clients := listModify st.clients pos (fun c =>
        { c with streams := mapSet c.streams streamid reg,
                 streams_traffic := (mapUpd c.streams_traffic streamid
                   stream_traffic_t.zero (fun _ => stream_traffic_t.zero)) }) }
      (1, st, Payload.reg reg)
    | p => (1, st, p)
  else if mtype = MSG2_USE_VEHICLE then
    (0, st, payload)
  else if mtype = MSG2_DELETE then
    (0, disconnect st (st.clients.getD pos cnull).uid "disconnected on request" false, payload)
  else if mtype = MSG2_CHAT then
    match payload with
    | Payload.str data =>
      let r := chatBranch script st pos uid data timestr
      (r.1, r.2, payload)
    | p => (3, st, p)
  else if mtype = MSG2_PRIVCHAT then
    match payload with
    | Payload.priv destuid text =>
      match getPosfromUidInt st.clients destuid with
      | some destpos =>
        -- the source passes the sender uid in the message-type position
        -- and MSG2_CHAT in the source-uid position of queueMessage here
        (0, { st with clients := listModify st.clients destpos (fun c =>
          { c with queue := c.queue ++ [⟨uid, (MSG2_CHAT : Int), 1, len - 4,
              Payload.str text⟩] }) }, payload)
      | none => (0, st, payload)
    | p => (0, st, p)
  else if mtype = MSG2_VEHICLE_DATA then
    match payload with
    | Payload.vpos p _ =>
      (1, { st with clients := listModify st.clients pos (fun c => { c with position := p }) },
       payload)
    | p => (1, st, p)
  else
    (0, st, payload)

/-- The publish block at the end of `Sequencer::queueMessage`: when the
mode is positive, add the length to the sender's per-stream incoming
counter, then fan out to every USED, flowing destination according to the
mode (1 = all except sender, 3 = all including sender, 2 = ADMIN-flagged
destinations except sender), accumulating each destination's outgoing
counter. -/
def publishBlock (st : SeqState) (pos : Nat) (mtype : Nat) (streamid : Nat)
    (payload : Payload) (len : Nat) (pm : Int) : SeqState :=
  if pm > 0 then
    let st := { st with clients := listModify st.clients pos (fun c =>
      { c with streams_traffic := (mapUpd c.streams_traffic streamid
          stream_traffic_t.zero
          (fun t => { t with bandwidthIncoming := t.bandwidthIncoming + len })) }) }
    let srcUid : Int := ((st.clients.getD pos cnull).uid : Int)
    if pm = 1 ∨ pm = 3 then
      { st with clients := mapIdx0 (fun i c =>
          if c.status = ClientStatus.USED ∧ c.flow ∧ (i ≠ pos ∨ pm = 3) then
            { c with
              streams_traffic := (mapUpd c.streams_traffic streamid
                stream_traffic_t.zero
                (fun t => { t with bandwidthOutgoing := t.bandwidthOutgoing + len })),
              queue := c.queue ++ [⟨mtype, srcUid, (streamid : Int), len, payload⟩] }
          else c) st.clients }
    else if pm = 2 then
      { st with clients := mapIdx0 (fun i c =>
          if c.status = ClientStatus.USED ∧ c.flow ∧ i ≠ pos ∧
             c.authstate &&& AUTH_ADMIN ≠ 0 then
            { c with
              streams_traffic := (mapUpd c.streams_traffic streamid
                stream_traffic_t.zero
                (fun t => { t with bandwidthOutgoing := t.bandwidthOutgoing + len })),
              queue := c.queue ++ [⟨mtype, srcUid, (streamid : Int), len, payload⟩] }
          else c) st.clients }
    else st
  else st

/-- `Sequencer::queueMessage`: drop the frame when the sender is no
longer in the table, otherwise classify and publish. -/
def queueMessage (script : Option (Nat → String → Int)) (st : SeqState) (uid : Nat)
    (mtype : Nat) (streamid : Nat) (payload : Payload) (len : Nat)
    (timestr : String) : SeqState :=
  match getPosfromUid st.clients uid with
  | none => st
  | some pos =>
    let r := classify script st pos uid mtype streamid payload len timestr
    publishBlock r.2.1 pos mtype streamid r.2.2 len r.1

/-! ## Admission (`Sequencer::createClient`) -/

/-- The duplicate-nickname loop of `createClient`: write the counter at
offset `min (length, 18)` (a `sprintf` over the previous digits is
cumulative) and re-check, until the candidate is free.  The loop always
terminates — the candidates are pairwise distinct and only finitely many
nicknames are taken — so the fuel used by `resolveNickname` is never
exhausted on the runs we reason about. -/
def nickDupLoop (clients : List client_t) : Nat → String → Nat → String
  | 0, buf, _ => buf
  | fuel + 1, buf, counter =>
    let buf := strTake buf 18 ++ toString counter
    if checkNickUnique clients buf then nickDupLoop clients fuel buf (counter + 1)
    else buf

/-- Nickname deduplication (`createClient` lines 233–251): on a clash,
truncate a full 20-byte base to 18 bytes and append counters from 2. -/
def resolveNickname (clients : List client_t) (dupe : Bool) (username : String) : String :=
  if dupe then
    let buf := strTake username 20
    let buf := if buf.data.length = 20 then strTake buf 18 else buf
    nickDupLoop clients (clients.length + 2) buf 2
  else username

/-- How an admission attempt ended: admitted (possibly disconnected again
right away when banned or when the welcome send failed), or rejected with
the `"Server is full"` error. -/
inductive AdmissionOutcome where
  | ok
  | serverFull
deriving DecidableEq, Repr

/-- Result of `createClient`: the state, the frames written directly to
the connecting socket, and the outcome. -/
structure CreateResult where
  state : SeqState
  sent : List OutMessage
  outcome : AdmissionOutcome
deriving DecidableEq, Repr

/-- `Sequencer::createClient`, with the collaborators passed in: the
configured `max_clients`, the optional auth resolver (token ↦ flags), the
handshake credentials, the socket's peer address, and whether the WELCOME
send succeeds (`Messaging::sendmessage` returning 0). -/
def createClient (maxClients : Nat) (authresolver : Option (String → Nat))
    (st : SeqState) (username uniqueid peerIP : String) (welcomeOk : Bool) :
    CreateResult :=
  let dupeNick := checkNickUnique st.clients username
  let playerColour := getFreePlayerColour st.clients
  if st.clients.length ≥ maxClients then
    { state := st,
      sent := [⟨MSG2_FULL, 0, 0, 0, Payload.raw []⟩],
      outcome := AdmissionOutcome.serverFull }
  else
    let uname := resolveNickname st.clients dupeNick username
    let to_add : client_t :=
      { uid := st.fuid,
        status := ClientStatus.USED,
        flow := false,
        initialized := false,
        nickname := strTake uname 20,
        uniqueid := strTake uniqueid 60,
        authstate := (match authresolver with
          | some f => f uniqueid
          | none => AUTH_NONE),
        colournumber := playerColour,
        slotnum := 0,
        vehicle_name := "",
        ip_addr := peerIP,
        position := ⟨0, 0, 0⟩,
        streams := [],
        streams_traffic := [],
        queue := [] }
    let st := { st with fuid := st.fuid + 1, clients := st.clients ++ [to_add] }
    let npos := (getPosfromUid st.clients to_add.uid).getD 0
    let st := { st with clients := (listModify st.clients npos
      (fun c => { c with slotnum := npos })) }
    let newUid := (st.clients.getD npos cnull).uid
    let info_own : client_info_on_join :=
      ⟨1, strTake (st.clients.getD npos cnull).nickname 20,
       (st.clients.getD npos cnull).authstate, npos, playerColour⟩
    if isbanned st.bans (some peerIP) then
      { state := disconnect st newUid "you are banned" false,
        sent := [⟨MSG2_BANNED, (newUid : Int), 0, 0, Payload.raw []⟩],
        outcome := AdmissionOutcome.ok }
    else if ¬ welcomeOk then
      { state := disconnect st newUid "error sending welcome message" false,
        sent := [],
        outcome := AdmissionOutcome.ok }
    else
      { state := { st with clients := st.clients.map (fun c =>
          { c with queue := c.queue ++ [(⟨MSG2_USER_JOIN, (newUid : Int), 0,
              sizeof_client_info_on_join, Payload.info info_own⟩ : OutMessage)] }) },
        sent := [⟨MSG2_WELCOME, (newUid : Int), 0, 4, Payload.colour playerColour⟩],
        outcome := AdmissionOutcome.ok }

/-! ## Admission / disconnect traces (for the uid and colour invariants) -/

/-- One external event against the sequencer: an admission attempt (with
its credentials, peer address and welcome-send result) or a disconnect
call. -/
inductive SeqEvent where
  | connect (username uniqueid peerIP : String) (welcomeOk : Bool)
  | leave (uid : Nat) (reason : String) (isError : Bool)
deriving Repr

/-- Apply one event. -/
def applyEvent (maxClients : Nat) (auth : Option (String → Nat)) (st : SeqState) :
    SeqEvent → SeqState
  | SeqEvent.connect u q ip w => (createClient maxClients auth st u q ip w).state
  | SeqEvent.leave uid r e => disconnect st uid r e

/-- Run a sequence of events. -/
def runEvents (maxClients : Nat) (auth : Option (String → Nat)) (st : SeqState) :
    List SeqEvent → SeqState
  | [] => st
  | e :: rest => runEvents maxClients auth (applyEvent maxClients auth st e) rest

/-- The uids handed out along a run, in admission order (`to_add->uid =
instance->fuid`, assigned exactly by non-full admissions). -/
def assignedUids (maxClients : Nat) (auth : Option (String → Nat)) (st : SeqState) :
    List SeqEvent → List Nat
  | [] => []
  | e :: rest =>
    (match e with
     | SeqEvent.connect _ _ _ _ =>
       if st.clients.length ≥ maxClients then [] else [st.fuid]
     | SeqEvent.leave _ _ _ => []) ++
    assignedUids maxClients auth (applyEvent maxClients auth st e) rest

/-! ## Inbound frame traces (for the dispatch properties) -/

/-- One inbound frame as handed to `queueMessage` by a receiver thread,
together with the wall-clock string the chat branch would format. -/
structure InFrame where
  uid : Nat
  mtype : Nat
  streamid : Nat
  payload : Payload
  len : Nat
  timestr : String
deriving DecidableEq, Repr

/-- Dispatch a list of frames in order. -/
def runFrames (script : Option (Nat → String → Int)) (st : SeqState) :
    List InFrame → SeqState
  | [] => st
  | f :: rest =>
    runFrames script (queueMessage script st f.uid f.mtype f.streamid f.payload f.len f.timestr) rest

/-- Whether a payload is the chat-text view. -/
def isStr : Payload → Bool
  | Payload.str _ => true
  | _ => false

/-- The chat records a frame appends to the history: the CHAT branch runs
exactly when the command is CHAT and the sender is present, and it always
pushes one record, which then sits at the back of the history. -/
def pushedDuring (script : Option (Nat → String → Int)) (st : SeqState) (f : InFrame) :
    List chat_save_t :=
  if f.mtype = MSG2_CHAT ∧ (getPosfromUid st.clients f.uid).isSome ∧ isStr f.payload then
    match (queueMessage script st f.uid f.mtype f.streamid f.payload f.len f.timestr).chathistory.getLast? with
    | some r => [r]
    | none => []
  else []

/-- All chat records pushed along a run, in push order. -/
def chatLogOfRun (script : Option (Nat → String → Int)) (st : SeqState) :
    List InFrame → List chat_save_t
  | [] => []
  | f :: rest =>
    pushedDuring script st f ++
    chatLogOfRun script (queueMessage script st f.uid f.mtype f.streamid f.payload f.len f.timestr) rest

/-- The per-stream incoming counter of the table entry at `pos`, the
value the dispatch accounting mutates. -/
def senderIncoming (st : SeqState) (pos : Nat) (streamid : Nat) : Nat :=
  (mapGetD (st.clients.getD pos cnull).streams_traffic streamid stream_traffic_t.zero).bandwidthIncoming

/-! ## Concrete states used by the witnesses and counterexamples -/

/-- An all-zero stream registration (128-byte name buffer). -/
def regBlank : stream_register_t :=
  ⟨0, 0, List.replicate 128 0⟩

/-- A flowing admin client holding twenty registered streams (ids 0–19). -/
def cAlice : client_t :=
  { uid := 1
    status := ClientStatus.USED
    flow := true
    initialized := true
    nickname := "alice"
    uniqueid := "tok1"
    authstate := AUTH_ADMIN
    colournumber := 0
    slotnum := 0
    vehicle_name := ""
    ip_addr := "1.2.3.4"
    position := ⟨0, 0, 0⟩
    streams := (List.range 20).map (fun i => (i, regBlank))
    streams_traffic := []
    queue := [] }

/-- A second flowing client with no streams and no auth flags. -/
def cBob : client_t :=
  { cAlice with
    uid := 2
    nickname := "bob"
    uniqueid := "tok2"
    authstate := 0
    colournumber := 1
    slotnum := 1
    ip_addr := "5.6.7.8"
    streams := [] }

/-- A two-client table (uids 1 and 2, both flowing), next uid 3. -/
def stTwo : SeqState :=
  ⟨[cAlice, cBob], [], [], 3, [], 0, 0⟩

/-- The same table with one ban record, for uid 3. -/
def stBanned : SeqState :=
  { stTwo with bans := [⟨3, "7.7.7.7", "guest", "alice", "swearing"⟩] }

/-- `stTwo` with the second client still before `enableFlow`. -/
def stBobNoFlow : SeqState :=
  ⟨[cAlice, { cBob with flow := false }], [], [], 3, [], 0, 0⟩

/-- A plain two-byte chat frame from uid 1. -/
def chatHi : InFrame :=
  ⟨1, MSG2_CHAT, 0, Payload.str "hi", 2, "t"⟩

/-- A `playerChat` handler answering `BROADCAST_BLOCK` (the value 3 of the
`broadcastType` enum of the script API, documented as "no broadcast"). -/
def blockScript : Nat → String → Int :=
  fun _ _ => 3

/-- A small demonstration trace: two admissions, a disconnect, and a
third admission (which reuses the slot but not the uid). -/
def evsDemo : List SeqEvent :=
  [SeqEvent.connect "a" "t1" "ip1" true,
   SeqEvent.connect "b" "t2" "ip2" true,
   SeqEvent.leave 1 "bye" false,
   SeqEvent.connect "c" "t3" "ip3" true]

/-! # Theorems -/

/-! ## List and map infrastructure -/

theorem mapIdxFrom_length (f : Nat → α → α) :
    ∀ (i : Nat) (l : List α), (mapIdxFrom f i l).length = l.length := by
  intro i l
  induction l generalizing i with
  | nil => rfl
  | cons a t ih => simp [mapIdxFrom, ih]

theorem mapIdx0_length (f : Nat → α → α) (l : List α) :
    (mapIdx0 f l).length = l.length :=
  mapIdxFrom_length f 0 l

theorem listModify_length (l : List α) (i : Nat) (f : α → α) :
    (listModify l i f).length = l.length :=
  mapIdx0_length _ l

theorem mapIdxFrom_getElem? (f : Nat → α → α) :
    ∀ (i : Nat) (l : List α) (j : Nat),
      (mapIdxFrom f i l)[j]? = (l[j]?).map (f (i + j)) := by
  intro i l
  induction l generalizing i with
  | nil => intro j; rfl
  | cons a t ih =>
    intro j
    cases j with
    | zero => simp [mapIdxFrom]
    | succ j =>
      simp only [mapIdxFrom, List.getElem?_cons_succ]
      rw [ih (i + 1) j]
      ring_nf

theorem mapIdx0_getElem? (f : Nat → α → α) (l : List α) (j : Nat) :
    (mapIdx0 f l)[j]? = (l[j]?).map (f j) := by
  simpa using mapIdxFrom_getElem? f 0 l j

theorem listModify_getElem?_self (l : List α) (i : Nat) (f : α → α) :
    (listModify l i f)[i]? = (l[i]?).map f := by
  simp [listModify, mapIdx0_getElem?]

theorem listModify_getElem?_ne (l : List α) (i : Nat) (f : α → α) (j : Nat)
    (h : j ≠ i) : (listModify l i f)[j]? = l[j]? := by
  simp only [listModify, mapIdx0_getElem?, h, if_false]
  cases l[j]? <;> rfl

theorem listModify_getD_self (l : List α) (i : Nat) (f : α → α) (d : α)
    (h : i < l.length) : (listModify l i f).getD i d = f (l.getD i d) := by
  rw [List.getD_eq_getElem?_getD, List.getD_eq_getElem?_getD,
    listModify_getElem?_self, List.getElem?_eq_getElem h]
  rfl

theorem listModify_getD_ne (l : List α) (i : Nat) (f : α → α) (d : α) (j : Nat)
    (h : j ≠ i) : (listModify l i f).getD j d = l.getD j d := by
  rw [List.getD_eq_getElem?_getD, List.getD_eq_getElem?_getD,
    listModify_getElem?_ne l i f j h]

theorem findPos_some_lt (p : α → Bool) :
    ∀ (l : List α) (i : Nat), findPos p l = some i → i < l.length := by
  intro l
  induction l with
  | nil => intro i h; simp [findPos] at h
  | cons a t ih =>
    intro i h
    by_cases hp : p a
    · simp [findPos, hp] at h
      simp [← h]
    · simp [findPos, hp] at h
      rcases h with ⟨j, hj, rfl⟩
      have := ih j hj
      simp
      omega

theorem findPos_some_spec (p : α → Bool) :
    ∀ (l : List α) (i : Nat), findPos p l = some i →
      ∃ a, l[i]? = some a ∧ p a = true := by
  intro l
  induction l with
  | nil => intro i h; simp [findPos] at h
  | cons a t ih =>
    intro i h
    by_cases hp : p a
    · simp [findPos, hp] at h
      exact ⟨a, by simp [← h], hp⟩
    · simp [findPos, hp] at h
      rcases h with ⟨j, hj, rfl⟩
      simpa using ih j hj

theorem findPos_mapIdxFrom (p : α → Bool) (f : Nat → α → α)
    (h : ∀ i a, p (f i a) = p a) :
    ∀ (i : Nat) (l : List α), findPos p (mapIdxFrom f i l) = findPos p l := by
  intro i l
  induction l generalizing i with
  | nil => rfl
  | cons a t ih => simp [mapIdxFrom, findPos, h, ih]

theorem findPos_listMap (p : α → Bool) (f : α → α) (h : ∀ a, p (f a) = p a) :
    ∀ l : List α, findPos p (l.map f) = findPos p l := by
  intro l
  induction l with
  | nil => rfl
  | cons a t ih => simp [findPos, h, ih]

theorem mapGetD_not_hasKey (m : List (Nat × α)) (k : Nat) (d : α)
    (h : mapHasKey m k = false) : mapGetD m k d = d := by
  induction m with
  | nil => rfl
  | cons e t ih =>
    simp [mapHasKey] at h
    simp [mapGetD, List.find?, h.1]
    have := ih (by simpa [mapHasKey] using h.2)
    simpa [mapGetD] using this

theorem mapGetD_mapSet_self (m : List (Nat × α)) (k : Nat) (v : α) (d : α) :
    mapGetD (mapSet m k v) k d = v := by
  by_cases h : mapHasKey m k
  · simp only [mapSet, h, if_true]
    induction m with
    | nil => simp [mapHasKey] at h
    | cons e t ih =>
      by_cases he : e.1 = k
      · simp [mapGetD, List.find?, he]
      · simp only [List.map_cons, if_neg he]
        have ht : mapHasKey t k := by
          simpa [mapHasKey, he] using h
        simp [mapGetD, List.find?, he] at ih ⊢
        simpa [mapGetD] using ih ht
  · simp only [mapSet, h, if_false, Bool.false_eq_true]
    induction m with
    | nil => simp [mapGetD, List.find?]
    | cons e t ih =>
      simp [mapHasKey] at h
      simp [mapGetD, List.find?, h.1]
      have := ih (by simpa [mapHasKey] using h.2)
      simpa [mapGetD] using this

theorem mapGetD_mapUpd (m : List (Nat × α)) (k : Nat) (d : α) (f : α → α) :
    mapGetD (mapUpd m k d f) k d = f (mapGetD m k d) :=
  mapGetD_mapSet_self m k _ d

theorem map_eq_of_pointwise (g : α → β) (f : α → α) (h : ∀ a, g (f a) = g a) :
    ∀ l : List α, (l.map f).map g = l.map g := by
  intro l
  induction l with
  | nil => rfl
  | cons a t ih => simp [h, ih]

theorem map_mapIdxFrom_eq (g : α → β) (f : Nat → α → α)
    (h : ∀ i a, g (f i a) = g a) :
    ∀ (i : Nat) (l : List α), (mapIdxFrom f i l).map g = l.map g := by
  intro i l
  induction l generalizing i with
  | nil => rfl
  | cons a t ih => simp [mapIdxFrom, h, ih]

theorem map_listModify_eq (g : α → β) (f : α → α) (h : ∀ a, g (f a) = g a)
    (l : List α) (i : Nat) : (listModify l i f).map g = l.map g := by
  refine map_mapIdxFrom_eq g _ ?_ 0 l
  intro j a
  by_cases hj : j = i <;> simp [hj, h]

theorem map_eraseIdx (g : α → β) :
    ∀ (l : List α) (i : Nat), (l.eraseIdx i).map g = (l.map g).eraseIdx i := by
  intro l
  induction l with
  | nil => intro i; rfl
  | cons a t ih =>
    intro i
    cases i with
    | zero => rfl
    | succ i => simp [List.eraseIdx, ih]

/-! ## C6: admission on a full table -/

/-- C6: whenever the client table already holds at least `max_clients`
entries, `createClient` writes a FULL frame to the connecting socket,
fails with the server-full error, and leaves the sequencer state — in
particular the client table — completely unchanged. -/
theorem createClient_full_rejected (maxClients : Nat)
    (auth : Option (String → Nat)) (st : SeqState) (u q ip : String) (w : Bool)
    (h : st.clients.length ≥ maxClients) :
    (createClient maxClients auth st u q ip w).outcome = AdmissionOutcome.serverFull ∧
    (createClient maxClients auth st u q ip w).state = st ∧
    (createClient maxClients auth st u q ip w).sent =
      [⟨MSG2_FULL, 0, 0, 0, Payload.raw []⟩] := by
  unfold createClient
  simp [h]

/-- Instance of `createClient_full_rejected` on a concrete full table
(`max_clients = 2`, two live clients). -/
theorem createClient_full_rejected_witness :
    (createClient 2 none stTwo "carol" "tok3" "9.9.9.9" true).outcome = AdmissionOutcome.serverFull ∧
    (createClient 2 none stTwo "carol" "tok3" "9.9.9.9" true).state = stTwo ∧
    (createClient 2 none stTwo "carol" "tok3" "9.9.9.9" true).sent =
      [⟨MSG2_FULL, 0, 0, 0, Payload.raw []⟩] :=
  createClient_full_rejected 2 none stTwo "carol" "tok3" "9.9.9.9" true (by decide)

/-! ## C10: `serverSay` delivery criteria -/

/-- `serverSay` to a specific (non-negative) uid whose holder has not yet
completed the handshake changes nothing at all. -/
theorem serverSay_no_flow_no_delivery (st : SeqState) (msg : String) (n : Nat)
    (stype : Int) (h : ∀ c ∈ st.clients, c.uid = n → c.flow = false) :
    (serverSay st msg (n : Int) stype).clients = st.clients := by
  unfold serverSay
  have : ∀ c ∈ st.clients,
      (if c.status = ClientStatus.USED ∧ c.flow = true ∧
          ((n : Int) = -1 ∨ (c.uid : Int) = (n : Int))
       then { c with queue :=
         c.queue ++ [⟨MSG2_CHAT, -1, -1,
           (if stype = 0 then "SERVER: " ++ msg else msg).data.length,
           Payload.str (if stype = 0 then "SERVER: " ++ msg else msg)⟩] }
       else c) = c := by
    intro c hc
    rw [if_neg]
    rintro ⟨-, hflow, huid⟩
    rcases huid with huid | huid
    · omega
    · have : c.uid = n := by exact_mod_cast huid
      rw [h c hc this] at hflow
      exact Bool.false_ne_true hflow
  calc (st.clients.map _) = st.clients.map id := List.map_congr_left this
  _ = st.clients := List.map_id _

theorem sendMOTD_no_flow_no_delivery (st : SeqState) (n : Nat)
    (lines : List String) (h : ∀ c ∈ st.clients, c.uid = n → c.flow = false) :
    (sendMOTD st n lines).clients = st.clients := by
  induction lines generalizing st with
  | nil => rfl
  | cons line rest ih =>
    show (sendMOTD (serverSay st line (n : Int) 1) n rest).clients = st.clients
    have hs := serverSay_no_flow_no_delivery st line n 1 h
    rw [ih (serverSay st line (n : Int) 1) (by rw [hs]; exact h), hs]

/-- C10: a `serverSay(msg, uid, type)` call enqueues exactly one CHAT
frame (source uid −1) to the client at table position `i` exactly when
that entry is USED, flowing, and addressed (`uid = −1` or its uid matches);
otherwise its queue is untouched.  Consequently `sendMOTD` to a client
whose `flow` flag is still false delivers nothing. -/
theorem serverSay_enqueues_iff :
    (∀ (st : SeqState) (msg : String) (uid stype : Int) (i : Nat),
      i < st.clients.length →
      ((serverSay st msg uid stype).clients.getD i cnull).queue =
        (st.clients.getD i cnull).queue ++
        (if (st.clients.getD i cnull).status = ClientStatus.USED ∧
            (st.clients.getD i cnull).flow = true ∧
            (uid = -1 ∨ ((st.clients.getD i cnull).uid : Int) = uid)
         then [⟨MSG2_CHAT, -1, -1,
             (if stype = 0 then "SERVER: " ++ msg else msg).data.length,
             Payload.str (if stype = 0 then "SERVER: " ++ msg else msg)⟩]
         else [])) ∧
    (∀ (st : SeqState) (n : Nat) (lines : List String),
      (∀ c ∈ st.clients, c.uid = n → c.flow = false) →
      (sendMOTD st n lines).clients = st.clients) := by
  constructor
  · intro st msg uid stype i h
    have hl : st.clients[i]? = some st.clients[i] := List.getElem?_eq_getElem h
    unfold serverSay
    simp only [List.getD_eq_getElem?_getD, List.getElem?_map, hl, Option.map_some']
    by_cases hc : st.clients[i].status = ClientStatus.USED ∧
        st.clients[i].flow = true ∧
        (uid = -1 ∨ ((st.clients[i]).uid : Int) = uid)
    · simp [hc]
    · simp [hc]
  · exact sendMOTD_no_flow_no_delivery

/-- Instance of `serverSay_enqueues_iff`: in `stBobNoFlow` the flowing
first client receives the broadcast line while the targeted second client
(`flow = false`) receives neither a broadcast nor its MOTD. -/
theorem serverSay_enqueues_iff_witness :
    ((serverSay stBobNoFlow "x" (-1) 0).clients.getD 1 cnull).queue =
      (stBobNoFlow.clients.getD 1 cnull).queue ++ [] ∧
    (sendMOTD stBobNoFlow 2 ["welcome!"]).clients = stBobNoFlow.clients := by
  constructor
  · have h := serverSay_enqueues_iff.1 stBobNoFlow "x" (-1) 0 1 (by decide)
    rw [h]
    congr 1
  · exact serverSay_enqueues_iff.2 stBobNoFlow 2 ["welcome!"] (by decide)

/-- C9: `isbanned` called with a NULL IP pointer reports "not banned" for
every state of the ban list, instead of failing or matching a record. -/
theorem isbanned_null_ip : ∀ bans : List ban_t, isbanned bans none = false :=
  fun _ => rfl

/-- C1: dispatching a STREAM_REGISTER frame to a sender that already owns
twenty registered streams stores a twenty-first registration and
broadcasts the frame to the other flowing client — the frame is not
dropped, because the size guard's `publishMode = 0` is overwritten by the
unconditional `publishMode = 1` at the end of the branch. -/
theorem stream_register_not_dropped_at_20 :
    ((queueMessage none stTwo 1 MSG2_STREAM_REGISTER 20 (Payload.reg regBlank) 50 "").clients.getD 0 cnull).streams.length = 21 ∧
    ((queueMessage none stTwo 1 MSG2_STREAM_REGISTER 20 (Payload.reg regBlank) 50 "").clients.getD 1 cnull).queue.map OutMessage.mtype = [MSG2_STREAM_REGISTER] := by
  decide

/-- C4: a `playerChat` handler returning the explicit decision
`BROADCAST_BLOCK` (= 3, "no broadcast") makes the dispatcher enqueue the
chat frame to every flowing client *including the sender*, because the
script's `broadcastType` value is stored raw into `publishMode`, whose
value 3 means "broadcast to all including sender". -/
theorem chat_block_decision_broadcasts :
    ((queueMessage (some blockScript) stTwo 1 MSG2_CHAT 0 (Payload.str "hello") 5 "t").clients.getD 0 cnull).queue.map OutMessage.payload = [Payload.str "hello"] ∧
    ((queueMessage (some blockScript) stTwo 1 MSG2_CHAT 0 (Payload.str "hello") 5 "t").clients.getD 1 cnull).queue.map OutMessage.payload = [Payload.str "hello"] := by
  decide

/-- C5: an authorized `!unban 3` with a matching ban record removes the
record but replies "ban not removed: error"; the success and failure
replies are swapped on the result of `unban`. -/
theorem unban_reply_inverted :
    (queueMessage none stBanned 1 MSG2_CHAT 0 (Payload.str "!unban 3") 8 "t").bans = [] ∧
    ((queueMessage none stBanned 1 MSG2_CHAT 0 (Payload.str "!unban 3") 8 "t").clients.getD 0 cnull).queue.map OutMessage.payload = [Payload.str "SERVER: ban not removed: error"] := by
  decide

/-- C3 (counterexample): a dropped frame does not accumulate the sender's
`bytes_in`: a 100-byte USE_VEHICLE frame leaves the counter untouched,
where the claim asks it to grow by 100. -/
theorem bytes_in_not_added_on_drop :
    ¬ senderIncoming (queueMessage none stTwo 1 MSG2_USE_VEHICLE 0 (Payload.raw []) 100 "") 0 0 =
      senderIncoming stTwo 0 0 + 100 := by
  decide

/-! ## C7: uid monotonicity -/

theorem disconnect_fuid (st : SeqState) (uid : Nat) (r : String) (e : Bool) :
    (disconnect st uid r e).fuid = st.fuid := by
  unfold disconnect
  cases h : getPosfromUid st.clients uid <;> simp

theorem createClient_state_fuid (m : Nat) (a : Option (String → Nat))
    (st : SeqState) (u q ip : String) (w : Bool) :
    (createClient m a st u q ip w).state.fuid =
      if st.clients.length ≥ m then st.fuid else st.fuid + 1 := by
  unfold createClient
  by_cases h : st.clients.length ≥ m
  · simp [h]
  · simp only [h, if_false]
    split_ifs <;> simp [disconnect_fuid]

theorem applyEvent_fuid_ge (m : Nat) (a : Option (String → Nat)) (st : SeqState)
    (e : SeqEvent) : st.fuid ≤ (applyEvent m a st e).fuid := by
  cases e with
  | connect u q ip w =>
    show st.fuid ≤ (createClient m a st u q ip w).state.fuid
    rw [createClient_state_fuid]
    split_ifs <;> omega
  | leave uid r er =>
    show st.fuid ≤ (disconnect st uid r er).fuid
    rw [disconnect_fuid]

theorem runEvents_fuid_ge (m : Nat) (a : Option (String → Nat)) :
    ∀ (evs : List SeqEvent) (st : SeqState), st.fuid ≤ (runEvents m a st evs).fuid := by
  intro evs
  induction evs with
  | nil => intro st; exact le_refl _
  | cons e rest ih =>
    intro st
    exact le_trans (applyEvent_fuid_ge m a st e) (ih (applyEvent m a st e))

theorem assignedUids_bounds (m : Nat) (a : Option (String → Nat)) :
    ∀ (evs : List SeqEvent) (st : SeqState),
      (∀ u ∈ assignedUids m a st evs, st.fuid ≤ u ∧ u < (runEvents m a st evs).fuid) ∧
      List.Pairwise (· < ·) (assignedUids m a st evs) := by
  intro evs
  induction evs with
  | nil => intro st; simp [assignedUids]
  | cons e rest ih =>
    intro st
    have hrest := ih (applyEvent m a st e)
    have hge : st.fuid ≤ (applyEvent m a st e).fuid := applyEvent_fuid_ge m a st e
    cases e with
    | connect u q ip w =>
      by_cases hfull : st.clients.length ≥ m
      · have hfu : (applyEvent m a st (SeqEvent.connect u q ip w)).fuid = st.fuid := by
          show (createClient m a st u q ip w).state.fuid = st.fuid
          rw [createClient_state_fuid]
          simp [hfull]
        constructor
        · intro v hv
          simp only [assignedUids, hfull, if_true, List.nil_append] at hv
          have := (hrest.1 v hv)
          rw [hfu] at this
          exact ⟨this.1, this.2⟩
        · simp only [assignedUids, hfull, if_true, List.nil_append]
          exact hrest.2
      · have hfu : (applyEvent m a st (SeqEvent.connect u q ip w)).fuid = st.fuid + 1 := by
          show (createClient m a st u q ip w).state.fuid = st.fuid + 1
          rw [createClient_state_fuid]
          simp [hfull]
        have hfin : st.fuid + 1 ≤
            (runEvents m a (applyEvent m a st (SeqEvent.connect u q ip w)) rest).fuid := by
          have := runEvents_fuid_ge m a rest (applyEvent m a st (SeqEvent.connect u q ip w))
          omega
        constructor
        · intro v hv
          simp only [assignedUids, hfull, if_false, List.cons_append, List.nil_append,
            List.mem_cons] at hv
          rcases hv with rfl | hv
          · refine ⟨le_refl _, ?_⟩
            show st.fuid < (runEvents m a (applyEvent m a st (SeqEvent.connect u q ip w)) rest).fuid
            omega
          · have := hrest.1 v hv
            rw [hfu] at this
            exact ⟨by omega, this.2⟩
        · simp only [assignedUids, hfull, if_false, List.cons_append, List.nil_append]
          refine List.Pairwise.cons ?_ hrest.2
          intro v hv
          have := hrest.1 v hv
          rw [hfu] at this
          omega
    | leave uid r er =>
      have hfu : (applyEvent m a st (SeqEvent.leave uid r er)).fuid = st.fuid := by
        show (disconnect st uid r er).fuid = st.fuid
        exact disconnect_fuid st uid r er
      constructor
      · intro v hv
        simp only [assignedUids, List.nil_append] at hv
        have := hrest.1 v hv
        rw [hfu] at this
        exact ⟨this.1, this.2⟩
      · simp only [assignedUids, List.nil_append]
        exact hrest.2

/-- C7: along any sequence of admissions and disconnects from the fresh
sequencer, the uids handed to successively admitted clients are strictly
increasing (hence never reused, even after their holder disconnected),
and every assigned uid is positive (the first one is `fuid`'s initial
value 1). -/
theorem uids_strictly_increasing_never_reused (maxClients : Nat)
    (auth : Option (String → Nat)) (evs : List SeqEvent) :
    List.Pairwise (· < ·) (assignedUids maxClients auth initState evs) ∧
    ∀ u ∈ assignedUids maxClients auth initState evs, 0 < u := by
  have h := assignedUids_bounds maxClients auth evs initState
  refine ⟨h.2, fun u hu => ?_⟩
  have := (h.1 u hu).1
  show 0 < u
  have : (1 : Nat) ≤ u := this
  omega

/-- Instance of `uids_strictly_increasing_never_reused` on the
demonstration trace: uids 1, 2, 3 are assigned in order and the uid of
the departed first client is not reassigned. -/
theorem uids_strictly_increasing_witness :
    List.Pairwise (· < ·) (assignedUids 3 none initState evsDemo) ∧ 0 < 1 :=
  ⟨(uids_strictly_increasing_never_reused 3 none evsDemo).1,
   (uids_strictly_increasing_never_reused 3 none evsDemo).2 1 (by decide)⟩

/-! ## C8: least-free-colour assignment and colour distinctness -/

theorem length_filter_succ_lt (cols : List Nat) (col : Nat) (h : col ∈ cols) :
    (cols.filter (fun c => col + 1 ≤ c)).length <
    (cols.filter (fun c => col ≤ c)).length := by
  have hmono : ∀ l : List Nat,
      (l.filter (fun c => col + 1 ≤ c)).length ≤ (l.filter (fun c => col ≤ c)).length := by
    intro l
    refine List.Sublist.length_le (List.monotone_filter_right l ?_)
    intro c hc
    simp only [decide_eq_true_eq] at hc ⊢
    omega
  induction cols with
  | nil => cases h
  | cons a t ih =>
    rcases List.mem_cons.mp h with rfl | ht
    · have h1 : (decide (col + 1 ≤ col)) = false := by simp
      have h2 : (decide (col ≤ col)) = true := by simp
      simp only [List.filter_cons, h1, h2, if_false, if_true, List.length_cons]
      exact Nat.lt_succ_of_le (hmono t)
    · by_cases hc2 : col + 1 ≤ a
      · have h1 : (decide (col + 1 ≤ a)) = true := by simp [hc2]
        have h2 : (decide (col ≤ a)) = true := by simp; omega
        simp only [List.filter_cons, h1, h2, if_true, List.length_cons]
        exact Nat.succ_lt_succ (ih ht)
      · have h1 : (decide (col + 1 ≤ a)) = false := by simp; omega
        simp only [List.filter_cons, h1, if_false]
        by_cases hc1 : col ≤ a
        · have h2 : (decide (col ≤ a)) = true := by simp [hc1]
          simp only [h2, if_true, List.length_cons]
          exact Nat.lt_succ_of_lt (ih ht)
        · have h2 : (decide (col ≤ a)) = false := by simp [hc1]
          simp only [h2, if_false]
          exact ih ht

theorem freeColFrom_spec (cols : List Nat) :
    ∀ (fuel col : Nat), (cols.filter (fun c => col ≤ c)).length < fuel →
      freeColFrom cols fuel col ∉ cols ∧ col ≤ freeColFrom cols fuel col ∧
      ∀ c, col ≤ c → c < freeColFrom cols fuel col → c ∈ cols := by
  intro fuel
  induction fuel with
  | zero => intro col h; omega
  | succ fuel ih =>
    intro col h
    simp only [freeColFrom]
    by_cases hc : col ∈ cols
    · have hlt := length_filter_succ_lt cols col hc
      have hrec := ih (col + 1) (by omega)
      rw [if_pos hc]
      refine ⟨hrec.1, by omega, ?_⟩
      intro c hc1 hc2
      rcases Nat.eq_or_lt_of_le hc1 with rfl | hc1
      · exact hc
      · exact hrec.2.2 c hc1 hc2
    · rw [if_neg hc]
      exact ⟨hc, le_refl _, fun c h1 h2 => absurd (Nat.lt_of_le_of_lt h1 h2) (lt_irrefl col)⟩

/-- The colours of a table, the quantity `getFreePlayerColour` scans. -/
theorem getFreePlayerColour_least_free (clients : List client_t) :
    getFreePlayerColour clients ∉ clients.map client_t.colournumber ∧
    ∀ c, c < getFreePlayerColour clients →
      c ∈ clients.map client_t.colournumber := by
  have hlen : ((clients.map client_t.colournumber).filter (fun c => 0 ≤ c)).length <
      clients.length + 1 := by
    have h1 := List.length_filter_le (fun c => decide (0 ≤ c)) (clients.map client_t.colournumber)
    have h2 : (clients.map client_t.colournumber).length = clients.length :=
      List.length_map _ _
    omega
  have h := freeColFrom_spec (clients.map client_t.colournumber)
    (clients.length + 1) 0 hlen
  exact ⟨h.1, fun c hlt => h.2.2 c (Nat.zero_le c) hlt⟩

theorem map_colour_append_queue (l : List client_t) (M : OutMessage) :
    ((l.map (fun c => { c with queue := c.queue ++ [M] })).map client_t.colournumber)
      = l.map client_t.colournumber :=
  map_eq_of_pointwise client_t.colournumber
    (fun c => { c with queue := c.queue ++ [M] }) (fun _ => rfl) l

theorem map_colour_listModify_slot (l : List client_t) (i n : Nat) :
    ((listModify l i (fun c => { c with slotnum := n })).map client_t.colournumber)
      = l.map client_t.colournumber :=
  map_listModify_eq client_t.colournumber
    (fun c => { c with slotnum := n }) (fun _ => rfl) l i

theorem disconnect_colours_sublist (st : SeqState) (uid : Nat) (r : String) (e : Bool) :
    ((disconnect st uid r e).clients.map client_t.colournumber).Sublist
      (st.clients.map client_t.colournumber) := by
  unfold disconnect
  cases h : getPosfromUid st.clients uid with
  | none => simp
  | some pos =>
    simp only
    rw [map_eraseIdx, map_colour_append_queue]
    exact List.eraseIdx_sublist _ pos

theorem nodup_colours_append_mex (st : SeqState) (x : client_t)
    (h : (st.clients.map client_t.colournumber).Nodup)
    (hx : x.colournumber = getFreePlayerColour st.clients) :
    ((st.clients ++ [x]).map client_t.colournumber).Nodup := by
  have hmex := (getFreePlayerColour_least_free st.clients).1
  rw [List.map_append]
  simp only [List.map_cons, List.map_nil]
  rw [List.nodup_append]
  refine ⟨h, List.nodup_singleton _, ?_⟩
  intro y hy
  simp only [List.mem_singleton]
  intro hy2
  rw [hy2, hx] at hy
  exact hmex hy

theorem createClient_colours_nodup (m : Nat) (a : Option (String → Nat))
    (st : SeqState) (u q ip : String) (w : Bool)
    (h : (st.clients.map client_t.colournumber).Nodup) :
    ((createClient m a st u q ip w).state.clients.map client_t.colournumber).Nodup := by
  unfold createClient
  by_cases hfull : st.clients.length ≥ m
  · simpa [hfull] using h
  · simp only [hfull, if_false]
    split_ifs with h1 h2 <;>
      first
      | · refine List.Nodup.sublist (disconnect_colours_sublist _ _ _ _) ?_
          simp only
          rw [map_colour_listModify_slot]
          exact nodup_colours_append_mex st _ h rfl
      | · simp only
          rw [map_colour_append_queue, map_colour_listModify_slot]
          exact nodup_colours_append_mex st _ h rfl

theorem runEvents_colours_nodup (m : Nat) (a : Option (String → Nat)) :
    ∀ (evs : List SeqEvent) (st : SeqState),
      (st.clients.map client_t.colournumber).Nodup →
      ((runEvents m a st evs).clients.map client_t.colournumber).Nodup := by
  intro evs
  induction evs with
  | nil => intro st h; exact h
  | cons e rest ih =>
    intro st h
    refine ih _ ?_
    cases e with
    | connect u q ip w => exact createClient_colours_nodup m a st u q ip w h
    | leave uid r er =>
      exact List.Nodup.sublist (disconnect_colours_sublist st uid r er) h

theorem colour_getD_map_queue (l : List client_t) (M : OutMessage) (i : Nat) :
    (((l.map (fun c => { c with queue := c.queue ++ [M] })).getD i cnull).colournumber)
      = (l.getD i cnull).colournumber := by
  rw [List.getD_eq_getElem?_getD, List.getD_eq_getElem?_getD, List.getElem?_map]
  cases l[i]? <;> rfl

theorem colour_getD_listModify_slot (l : List client_t) (i n j : Nat) :
    (((listModify l i (fun c => { c with slotnum := n })).getD j cnull).colournumber)
      = (l.getD j cnull).colournumber := by
  by_cases hj : j = i
  · subst hj
    rw [List.getD_eq_getElem?_getD, List.getD_eq_getElem?_getD,
      listModify_getElem?_self]
    cases l[j]? <;> rfl
  · rw [List.getD_eq_getElem?_getD, List.getD_eq_getElem?_getD,
      listModify_getElem?_ne _ _ _ _ hj]

/-- C8: `getFreePlayerColour` returns precisely the smallest non-negative
integer not used by any table entry; a plainly admitted client receives
exactly that colour; and along any sequence of admissions and disconnects
the live colours stay pairwise distinct. -/
theorem colour_assignment_least_free :
    (∀ clients : List client_t,
      getFreePlayerColour clients ∉ clients.map client_t.colournumber ∧
      ∀ c, c < getFreePlayerColour clients →
        c ∈ clients.map client_t.colournumber) ∧
    (∀ (m : Nat) (a : Option (String → Nat)) (st : SeqState) (u q ip : String),
      ¬ st.clients.length ≥ m → isbanned st.bans (some ip) = false →
      (((createClient m a st u q ip true).state.clients.getD
          st.clients.length cnull).colournumber) = getFreePlayerColour st.clients) ∧
    (∀ (m : Nat) (a : Option (String → Nat)) (evs : List SeqEvent),
      (((runEvents m a initState evs).clients.map client_t.colournumber)).Nodup) := by
  refine ⟨getFreePlayerColour_least_free, ?_, ?_⟩
  · intro m a st u q ip hfull hb
    unfold createClient
    simp only [hfull, if_false, hb, Bool.false_eq_true, not_true_eq_false,
      not_false_eq_true, if_true]
    rw [colour_getD_map_queue, colour_getD_listModify_slot]
    rw [List.getD_eq_getElem?_getD, List.getElem?_concat_length]
    rfl
  · intro m a evs
    exact runEvents_colours_nodup m a evs initState List.nodup_nil

/-! ## Chat-history characterization (towards C2)

Every dispatch path except the CHAT branch leaves the chat history
unchanged, and the CHAT branch applies exactly `chatHistoryPush`. -/

theorem foldl_preserves {X β : Type _} (g : SeqState → β)
    (f : SeqState → X → SeqState) (hf : ∀ s x, g (f s x) = g s) :
    ∀ (l : List X) (st : SeqState), g (l.foldl f st) = g st := by
  intro l
  induction l with
  | nil => intro st; rfl
  | cons x t ih => intro st; rw [List.foldl_cons, ih, hf]

theorem disconnect_chathistory (st : SeqState) (uid : Nat) (r : String) (e : Bool) :
    (disconnect st uid r e).chathistory = st.chathistory := by
  unfold disconnect
  cases h : getPosfromUid st.clients uid <;> simp

theorem unban_chathistory (st : SeqState) (b : Int) :
    (unban st b).1.chathistory = st.chathistory := by
  unfold unban
  split <;> rfl

theorem kick_chathistory (st : SeqState) (k : Int) (m : Nat) (msg : Option String) :
    (kick st k m msg).1.chathistory = st.chathistory := by
  unfold kick
  split
  · rfl
  · split
    · rfl
    · exact disconnect_chathistory _ _ _ _

theorem ban_chathistory (st : SeqState) (b : Int) (m : Nat) (msg : Option String) :
    (ban st b m msg).1.chathistory = st.chathistory := by
  unfold ban
  split
  · rfl
  · split
    · rfl
    · rw [kick_chathistory]

theorem cmdVersion_chathistory (st : SeqState) (uid : Nat) (data : String) :
    (cmdVersion st uid data).chathistory = st.chathistory := by
  unfold cmdVersion
  split_ifs <;> rfl

/-- Both branches of an `if` carry the same chat history. -/
theorem ite_chathistory {h0 : List chat_save_t} (c : Prop) [Decidable c]
    (a b : SeqState) (ha : a.chathistory = h0) (hb : b.chathistory = h0) :
    (if c then a else b).chathistory = h0 := by
  split_ifs <;> assumption

theorem cmdList_chathistory (st : SeqState) (uid : Nat) (data : String) :
    (cmdList st uid data).chathistory = st.chathistory := by
  unfold cmdList
  split_ifs with h
  · refine foldl_preserves SeqState.chathistory _ ?_ _ _
    intro s x
    rfl
  · rfl

theorem cmdBans_chathistory (st : SeqState) (uid : Nat) (data : String) :
    (cmdBans st uid data).chathistory = st.chathistory := by
  unfold cmdBans
  split_ifs with h
  · refine foldl_preserves SeqState.chathistory _ ?_ _ _
    intro s x
    rfl
  · rfl

theorem cmdUnban_chathistory (st : SeqState) (pos : Nat) (uid : Nat) (data : String) :
    (cmdUnban st pos uid data).chathistory = st.chathistory := by
  unfold cmdUnban
  split_ifs with h1 h2
  · split
    · rfl
    · rename_i buid heq
      refine ite_chathistory _ _ _ rfl
        (ite_chathistory _ _ _ (unban_chathistory st buid) (unban_chathistory st buid))
  · rfl
  · rfl

theorem cmdBan_chathistory (st : SeqState) (pos : Nat) (uid : Nat) (data : String) :
    (cmdBan st pos uid data).chathistory = st.chathistory := by
  unfold cmdBan
  split_ifs with h1 h2
  · refine ite_chathistory _ _ _ rfl
      (ite_chathistory _ _ _ (ban_chathistory st _ uid _) (ban_chathistory st _ uid _))
  · rfl
  · rfl

theorem cmdKick_chathistory (st : SeqState) (pos : Nat) (uid : Nat) (data : String) :
    (cmdKick st pos uid data).chathistory = st.chathistory := by
  unfold cmdKick
  split_ifs with h1 h2
  · refine ite_chathistory _ _ _ rfl
      (ite_chathistory _ _ _ (kick_chathistory st _ uid _) (kick_chathistory st _ uid _))
  · rfl
  · rfl

theorem chatCommands_chathistory (st : SeqState) (pos : Nat) (uid : Nat) (data : String) :
    (chatCommands st pos uid data).chathistory = st.chathistory := by
  unfold chatCommands
  rw [cmdKick_chathistory, cmdBan_chathistory, cmdUnban_chathistory,
    cmdBans_chathistory, cmdList_chathistory, cmdVersion_chathistory]

theorem notifyAllVehicles_chathistory (st : SeqState) (uid : Nat) :
    (notifyAllVehicles st uid).chathistory = st.chathistory := by
  unfold notifyAllVehicles
  cases h : getPosfromUid st.clients uid with
  | none => rfl
  | some pos =>
    exact foldl_preserves SeqState.chathistory _
      (fun s x => by dsimp only; split <;> rfl) _ _

theorem publishBlock_chathistory (st : SeqState) (pos : Nat) (mtype : Nat)
    (sid : Nat) (payload : Payload) (len : Nat) (pm : Int) :
    (publishBlock st pos mtype sid payload len pm).chathistory = st.chathistory := by
  unfold publishBlock
  split_ifs <;> rfl

/-! ### Branch equations for `classify` -/

theorem classify_stream_data (script : Option (Nat → String → Int)) (st : SeqState)
    (pos uid sid : Nat) (p : Payload) (len : Nat) (ts : String) :
    classify script st pos uid MSG2_STREAM_DATA sid p len ts =
      (1, (if ¬ (st.clients.getD pos cnull).initialized = true then
        { notifyAllVehicles st (st.clients.getD pos cnull).uid with
          clients := listModify (notifyAllVehicles st (st.clients.getD pos cnull).uid).clients
            pos (fun c => { c with initialized := true }) }
      else st), p) := by
  unfold classify
  rw [if_pos rfl]

theorem classify_stream_register (script : Option (Nat → String → Int)) (st : SeqState)
    (pos uid sid : Nat) (reg : stream_register_t) (len : Nat) (ts : String) :
    classify script st pos uid MSG2_STREAM_REGISTER sid (Payload.reg reg) len ts =
      (1, { st with clients := listModify st.clients pos (fun c =>
        { c with
          streams := mapSet c.streams sid
            { reg with name := (reg.name.map (fun b => if b = 32 then 0 else b)).set 127 0 },
          streams_traffic := (mapUpd c.streams_traffic sid stream_traffic_t.zero
            (fun _ => stream_traffic_t.zero)) }) },
       Payload.reg { reg with
         name := (reg.name.map (fun b => if b = 32 then 0 else b)).set 127 0 }) := by
  unfold classify
  rw [if_neg (by decide), if_pos rfl]

theorem classify_use_vehicle (script : Option (Nat → String → Int)) (st : SeqState)
    (pos uid sid : Nat) (p : Payload) (len : Nat) (ts : String) :
    classify script st pos uid MSG2_USE_VEHICLE sid p len ts = (0, st, p) := by
  unfold classify
  rw [if_neg (by decide), if_neg (by decide), if_pos rfl]

theorem classify_delete (script : Option (Nat → String → Int)) (st : SeqState)
    (pos uid sid : Nat) (p : Payload) (len : Nat) (ts : String) :
    classify script st pos uid MSG2_DELETE sid p len ts =
      (0, disconnect st (st.clients.getD pos cnull).uid "disconnected on request" false, p) := by
  unfold classify
  rw [if_neg (by decide), if_neg (by decide), if_neg (by decide), if_pos rfl]

theorem classify_chat_str (script : Option (Nat → String → Int)) (st : SeqState)
    (pos uid sid : Nat) (data : String) (len : Nat) (ts : String) :
    classify script st pos uid MSG2_CHAT sid (Payload.str data) len ts =
      ((chatBranch script st pos uid data ts).1,
       (chatBranch script st pos uid data ts).2, Payload.str data) := by
  unfold classify
  rw [if_neg (by decide), if_neg (by decide), if_neg (by decide), if_neg (by decide),
    if_pos rfl]

theorem classify_chat_not_str (script : Option (Nat → String → Int)) (st : SeqState)
    (pos uid sid : Nat) (p : Payload) (len : Nat) (ts : String)
    (h : isStr p = false) :
    classify script st pos uid MSG2_CHAT sid p len ts = (3, st, p) := by
  unfold classify
  rw [if_neg (by decide), if_neg (by decide), if_neg (by decide), if_neg (by decide),
    if_pos rfl]
  cases p <;> first | rfl | simp [isStr] at h

theorem classify_privchat (script : Option (Nat → String → Int)) (st : SeqState)
    (pos uid sid : Nat) (p : Payload) (len : Nat) (ts : String) :
    classify script st pos uid MSG2_PRIVCHAT sid p len ts =
      (0, (match p with
       | Payload.priv destuid text =>
         (match getPosfromUidInt st.clients destuid with
          | some destpos => { st with clients := listModify st.clients destpos (fun c =>
              { c with queue := c.queue ++ [⟨uid, (MSG2_CHAT : Int), 1, len - 4,
                Payload.str text⟩] }) }
          | none => st)
       | _ => st), p) := by
  unfold classify
  rw [if_neg (by decide), if_neg (by decide), if_neg (by decide), if_neg (by decide),
    if_neg (by decide), if_pos rfl]
  cases p <;> first
    | rfl
    | (dsimp only
       rename_i d t
       cases getPosfromUidInt st.clients d <;> rfl)

theorem classify_vehicle_data (script : Option (Nat → String → Int)) (st : SeqState)
    (pos uid sid : Nat) (p : Payload) (len : Nat) (ts : String) :
    classify script st pos uid MSG2_VEHICLE_DATA sid p len ts =
      (1, (match p with
       | Payload.vpos v _ =>
         { st with clients := listModify st.clients pos (fun c => { c with position := v }) }
       | _ => st), p) := by
  unfold classify
  rw [if_neg (by decide), if_neg (by decide), if_neg (by decide), if_neg (by decide),
    if_neg (by decide), if_neg (by decide), if_pos rfl]
  cases p <;> rfl

theorem classify_other (script : Option (Nat → String → Int)) (st : SeqState)
    (pos uid mtype sid : Nat) (p : Payload) (len : Nat) (ts : String)
    (h1 : mtype ≠ MSG2_STREAM_DATA) (h2 : mtype ≠ MSG2_STREAM_REGISTER)
    (h3 : mtype ≠ MSG2_USE_VEHICLE) (h4 : mtype ≠ MSG2_DELETE)
    (h5 : mtype ≠ MSG2_CHAT) (h6 : mtype ≠ MSG2_PRIVCHAT)
    (h7 : mtype ≠ MSG2_VEHICLE_DATA) :
    classify script st pos uid mtype sid p len ts = (0, st, p) := by
  unfold classify
  rw [if_neg h1, if_neg h2, if_neg h3, if_neg h4, if_neg h5, if_neg h6, if_neg h7]

/-! ### The two chat-history step lemmas -/

theorem chatBranch_chathistory (script : Option (Nat → String → Int)) (st : SeqState)
    (pos uid : Nat) (data ts : String) :
    (chatBranch script st pos uid data ts).2.chathistory =
      chatHistoryPush st.chathistory
        ⟨ts, ((chatCommands st pos uid data).clients.getD pos cnull).nickname,
         ((chatCommands st pos uid data).clients.getD pos cnull).uid, data⟩ := by
  unfold chatBranch
  dsimp only
  rw [chatCommands_chathistory]

/-- A CHAT frame from a present sender always pushes one record through
`chatHistoryPush`. -/
theorem queueMessage_hist_push (script : Option (Nat → String → Int)) (st : SeqState)
    (uid sid : Nat) (payload : Payload) (len : Nat) (ts : String) (pos : Nat)
    (data : String) (hp : getPosfromUid st.clients uid = some pos)
    (hd : payload = Payload.str data) :
    (queueMessage script st uid MSG2_CHAT sid payload len ts).chathistory =
      chatHistoryPush st.chathistory
        ⟨ts, ((chatCommands st pos uid data).clients.getD pos cnull).nickname,
         ((chatCommands st pos uid data).clients.getD pos cnull).uid, data⟩ := by
  subst hd
  simp only [queueMessage, hp]
  rw [classify_chat_str, publishBlock_chathistory]
  exact chatBranch_chathistory script st pos uid data ts

/-- Every other frame leaves the chat history unchanged. -/
theorem queueMessage_hist_preserved (script : Option (Nat → String → Int))
    (st : SeqState) (uid mtype sid : Nat) (payload : Payload) (len : Nat) (ts : String)
    (h : ¬ (mtype = MSG2_CHAT ∧ (getPosfromUid st.clients uid).isSome = true ∧
        isStr payload = true)) :
    (queueMessage script st uid mtype sid payload len ts).chathistory = st.chathistory := by
  cases hp : getPosfromUid st.clients uid with
  | none => simp only [queueMessage, hp]
  | some pos =>
    simp only [queueMessage, hp]
    rw [publishBlock_chathistory]
    by_cases h1 : mtype = MSG2_STREAM_DATA
    · subst h1
      rw [classify_stream_data]
      dsimp only
      split_ifs with h2
      · rfl
      · show (notifyAllVehicles st _).chathistory = st.chathistory
        exact notifyAllVehicles_chathistory _ _
    · by_cases h2 : mtype = MSG2_STREAM_REGISTER
      · subst h2
        cases payload <;>
          first
          | rw [classify_stream_register]
          | (unfold classify
             rw [if_neg (by decide), if_pos rfl])
      · by_cases h3 : mtype = MSG2_USE_VEHICLE
        · subst h3
          rw [classify_use_vehicle]
        · by_cases h4 : mtype = MSG2_DELETE
          · subst h4
            rw [classify_delete]
            exact disconnect_chathistory _ _ _ _
          · by_cases h5 : mtype = MSG2_CHAT
            · subst h5
              have hns : isStr payload = false := by
                rcases Bool.eq_false_or_eq_true (isStr payload) with hb | hb
                · exact absurd ⟨rfl, by rw [hp]; rfl, hb⟩ h
                · exact hb
              rw [classify_chat_not_str _ _ _ _ _ _ _ _ hns]
            · by_cases h6 : mtype = MSG2_PRIVCHAT
              · subst h6
                rw [classify_privchat]
                dsimp only
                cases payload <;> try rfl
                rename_i destuid text
                dsimp only
                cases getPosfromUidInt st.clients destuid <;> rfl
              · by_cases h7 : mtype = MSG2_VEHICLE_DATA
                · subst h7
                  rw [classify_vehicle_data]
                  dsimp only
                  cases payload <;> rfl
                · rw [classify_other _ _ _ _ _ _ _ _ _ h1 h2 h3 h4 h5 h6 h7]

/-- One push step against the "suffix of the full log" formulation. -/
theorem drop_push_step (h0 : List chat_save_t) (r : chat_save_t) (X : List chat_save_t)
    (hle : h0.length ≤ 501) :
    (chatHistoryPush h0 r ++ X).drop ((chatHistoryPush h0 r).length + X.length - 501)
      = (h0 ++ ([r] ++ X)).drop (h0.length + ([r] ++ X).length - 501) := by
  unfold chatHistoryPush
  split_ifs with hgt
  · have h1le : (1 : Nat) ≤ h0.length := by omega
    have hlist : (h0.tail ++ [r]) ++ X = (h0 ++ ([r] ++ X)).drop 1 := by
      rw [List.append_assoc, ← List.drop_one, ← List.drop_append_of_le_length h1le]
    rw [hlist, List.drop_drop]
    have hij : 1 + ((h0.tail ++ [r]).length + X.length - 501)
        = h0.length + ([r] ++ X).length - 501 := by
      simp only [List.length_append, List.length_tail, List.length_cons, List.length_nil]
      omega
    rw [hij]
  · have hij : (h0 ++ [r]).length + X.length - 501
        = h0.length + ([r] ++ X).length - 501 := by
      simp only [List.length_append, List.length_cons, List.length_nil]
      omega
    rw [hij, List.append_assoc]

/-- The chat history along any run is the suffix of the full push log
that fits the (501-record) ring. -/
theorem runFrames_chathistory_rel (script : Option (Nat → String → Int)) :
    ∀ (frames : List InFrame) (st : SeqState), st.chathistory.length ≤ 501 →
      (runFrames script st frames).chathistory =
        (st.chathistory ++ chatLogOfRun script st frames).drop
          (st.chathistory.length + (chatLogOfRun script st frames).length - 501) := by
  intro frames
  induction frames with
  | nil =>
    intro st h
    simp only [runFrames, chatLogOfRun, List.append_nil, List.length_nil, Nat.add_zero]
    rw [Nat.sub_eq_zero_of_le h, List.drop_zero]
  | cons f rest ih =>
    intro st h0
    simp only [runFrames, chatLogOfRun]
    by_cases hstep : f.mtype = MSG2_CHAT ∧
        (getPosfromUid st.clients f.uid).isSome = true ∧ isStr f.payload = true
    · obtain ⟨hm, hsome, hstr⟩ := hstep
      obtain ⟨pos, hp⟩ := Option.isSome_iff_exists.mp hsome
      obtain ⟨data, hd⟩ : ∃ s, f.payload = Payload.str s := by
        cases hpl : f.payload <;>
          first
          | exact ⟨_, rfl⟩
          | (rw [hpl] at hstr; simp [isStr] at hstr)
      have hpush : (queueMessage script st f.uid f.mtype f.streamid f.payload f.len
            f.timestr).chathistory
          = chatHistoryPush st.chathistory
              ⟨f.timestr,
               ((chatCommands st pos f.uid data).clients.getD pos cnull).nickname,
               ((chatCommands st pos f.uid data).clients.getD pos cnull).uid, data⟩ := by
        rw [hm]
        exact queueMessage_hist_push script st f.uid f.streamid f.payload f.len
          f.timestr pos data hp hd
      have hpd : pushedDuring script st f =
          [⟨f.timestr,
            ((chatCommands st pos f.uid data).clients.getD pos cnull).nickname,
            ((chatCommands st pos f.uid data).clients.getD pos cnull).uid, data⟩] := by
        unfold pushedDuring
        rw [if_pos ⟨hm, hsome, hstr⟩, hpush]
        unfold chatHistoryPush
        rw [List.getLast?_concat]
      have hlen1 : (queueMessage script st f.uid f.mtype f.streamid f.payload f.len
          f.timestr).chathistory.length ≤ 501 := by
        rw [hpush]
        unfold chatHistoryPush
        split_ifs with hgt
        · simp only [List.length_append, List.length_tail, List.length_cons, List.length_nil]
          omega
        · simp only [List.length_append, List.length_cons, List.length_nil]
          omega
      have ihs := ih (queueMessage script st f.uid f.mtype f.streamid f.payload f.len
        f.timestr) hlen1
      rw [ihs, hpd, hpush]
      exact drop_push_step st.chathistory _ _ h0
    · have hkeep := queueMessage_hist_preserved script st f.uid f.mtype f.streamid
        f.payload f.len f.timestr hstep
      have hpd : pushedDuring script st f = [] := by
        unfold pushedDuring
        rw [if_neg hstep]
      have ihs := ih (queueMessage script st f.uid f.mtype f.streamid f.payload f.len
        f.timestr) (by rw [hkeep]; exact h0)
      rw [ihs, hpd, hkeep]
      simp only [List.nil_append]

/-- C2 (amended): from any state whose history respects the 501 bound —
every reachable state does, since admission and disconnect never touch
the history — dispatching any sequence of frames leaves the chat history
equal to the full chronological log of records (the start history
followed by every record this run pushed) with all but the last 501
dropped: at most 501 records (not 500: the source pops only when the
size already exceeds 500), and they are the most recent ones, in FIFO
order. -/
theorem chat_history_most_recent_501 (script : Option (Nat → String → Int))
    (st : SeqState) (frames : List InFrame) (h : st.chathistory.length ≤ 501) :
    (runFrames script st frames).chathistory =
      (st.chathistory ++ chatLogOfRun script st frames).drop
        (st.chathistory.length + (chatLogOfRun script st frames).length - 501) ∧
    (runFrames script st frames).chathistory.length ≤ 501 := by
  have hrel := runFrames_chathistory_rel script frames st h
  refine ⟨hrel, ?_⟩
  rw [hrel, List.length_drop, List.length_append]
  omega

/-- Instance of `chat_history_most_recent_501` on the two-client state:
one plain chat frame is dispatched and one record is really pushed, so
the run the theorem describes is not a no-op. -/
theorem chat_history_most_recent_501_witness :
    (stTwo.chathistory.length ≤ 501 ∧
      (runFrames none stTwo [chatHi]).chathistory.length = 1) ∧
    ((runFrames none stTwo [chatHi]).chathistory =
      (stTwo.chathistory ++ chatLogOfRun none stTwo [chatHi]).drop
        (stTwo.chathistory.length + (chatLogOfRun none stTwo [chatHi]).length - 501) ∧
     (runFrames none stTwo [chatHi]).chathistory.length ≤ 501) :=
  ⟨⟨by decide, by decide⟩, chat_history_most_recent_501 none stTwo [chatHi] (by decide)⟩

/-! ### The counterexample run: 501 plain chat lines -/

theorem publishBlock_map_uid (st : SeqState) (pos : Nat) (mtype sid : Nat)
    (payload : Payload) (len : Nat) (pm : Int) :
    (publishBlock st pos mtype sid payload len pm).clients.map client_t.uid =
      st.clients.map client_t.uid := by
  unfold publishBlock
  split_ifs with h1 h2 h3
  · refine Eq.trans (map_mapIdxFrom_eq client_t.uid _ ?_ 0 _) ?_
    · intro i c
      dsimp only
      split <;> rfl
    · refine map_listModify_eq client_t.uid _ ?_ _ _
      intro c
      rfl
  · refine Eq.trans (map_mapIdxFrom_eq client_t.uid _ ?_ 0 _) ?_
    · intro i c
      dsimp only
      split <;> rfl
    · refine map_listModify_eq client_t.uid _ ?_ _ _
      intro c
      rfl
  · refine map_listModify_eq client_t.uid _ ?_ _ _
    intro c
    rfl
  · rfl

theorem chatCommands_hi (st : SeqState) (pos uid : Nat) :
    chatCommands st pos uid "hi" = st := by
  unfold chatCommands cmdKick cmdBan cmdUnban cmdBans cmdList cmdVersion
  rw [if_neg (by decide), if_neg (by decide), if_neg (by decide), if_neg (by decide),
    if_neg (by decide), if_neg (by decide)]

theorem queueMessage_hi_map_uid (st : SeqState) (pos : Nat)
    (hp : getPosfromUid st.clients 1 = some pos) :
    (queueMessage none st 1 MSG2_CHAT 0 (Payload.str "hi") 2 "t").clients.map client_t.uid
      = st.clients.map client_t.uid := by
  simp only [queueMessage, hp]
  rw [classify_chat_str, publishBlock_map_uid]
  show (chatBranch none st pos 1 "hi" "t").2.clients.map client_t.uid = _
  unfold chatBranch
  dsimp only
  rw [chatCommands_hi]

theorem getPos_one_of_map_uid (st : SeqState)
    (h : st.clients.map client_t.uid = [1, 2]) :
    getPosfromUid st.clients 1 = some 0 := by
  cases hc : st.clients with
  | nil => rw [hc] at h; simp at h
  | cons c1 tl =>
    rw [hc] at h
    simp only [List.map_cons, List.cons.injEq] at h
    unfold getPosfromUid findPos
    rw [if_pos]
    simp [h.1]

theorem chatLog_replicate_hi_length (n : Nat) :
    ∀ st : SeqState, st.clients.map client_t.uid = [1, 2] →
      (chatLogOfRun none st (List.replicate n chatHi)).length = n := by
  induction n with
  | zero => intro st h; rfl
  | succ n ih =>
    intro st h
    have hpos : getPosfromUid st.clients 1 = some 0 := getPos_one_of_map_uid st h
    have hpush := queueMessage_hist_push none st 1 0 (Payload.str "hi") 2 "t" 0 "hi"
      hpos rfl
    have hguard : chatHi.mtype = MSG2_CHAT ∧
        (getPosfromUid st.clients chatHi.uid).isSome = true ∧
        isStr chatHi.payload = true := by
      refine ⟨rfl, ?_, rfl⟩
      rw [show chatHi.uid = 1 from rfl, hpos]
      rfl
    have hpd : pushedDuring none st chatHi =
        [⟨"t", ((chatCommands st 0 1 "hi").clients.getD 0 cnull).nickname,
          ((chatCommands st 0 1 "hi").clients.getD 0 cnull).uid, "hi"⟩] := by
      unfold pushedDuring
      rw [if_pos hguard]
      rw [show (queueMessage none st chatHi.uid chatHi.mtype chatHi.streamid
        chatHi.payload chatHi.len chatHi.timestr).chathistory =
        (queueMessage none st 1 MSG2_CHAT 0 (Payload.str "hi") 2 "t").chathistory from rfl]
      rw [hpush]
      unfold chatHistoryPush
      rw [List.getLast?_concat]
    have hmap : (queueMessage none st chatHi.uid chatHi.mtype chatHi.streamid
        chatHi.payload chatHi.len chatHi.timestr).clients.map client_t.uid = [1, 2] := by
      rw [show (queueMessage none st chatHi.uid chatHi.mtype chatHi.streamid
        chatHi.payload chatHi.len chatHi.timestr) =
        (queueMessage none st 1 MSG2_CHAT 0 (Payload.str "hi") 2 "t") from rfl]
      rw [queueMessage_hi_map_uid st 0 hpos]
      exact h
    rw [List.replicate_succ]
    show (pushedDuring none st chatHi ++ _).length = n + 1
    rw [List.length_append, hpd, ih _ hmap]
    simp only [List.length_cons, List.length_nil]
    omega

/-! ### Traffic accounting (towards C3) -/

theorem publishBlock_zero (st : SeqState) (pos mt sid : Nat) (p : Payload) (len : Nat) :
    publishBlock st pos mt sid p len 0 = st := by
  unfold publishBlock
  rw [if_neg (by decide)]

theorem traffic_getD_listModify_queue (l : List client_t) (i : Nat) (M : OutMessage)
    (j : Nat) :
    (((listModify l i (fun c => { c with queue := c.queue ++ [M] })).getD j cnull).streams_traffic)
      = (l.getD j cnull).streams_traffic := by
  by_cases hj : j = i
  · subst hj
    rw [List.getD_eq_getElem?_getD, List.getD_eq_getElem?_getD, listModify_getElem?_self]
    cases l[j]? <;> rfl
  · rw [List.getD_eq_getElem?_getD, List.getD_eq_getElem?_getD,
      listModify_getElem?_ne _ _ _ _ hj]

theorem traffic_getD_listModify_position (l : List client_t) (i : Nat) (v : Vector3)
    (j : Nat) :
    (((listModify l i (fun c => { c with position := v })).getD j cnull).streams_traffic)
      = (l.getD j cnull).streams_traffic := by
  by_cases hj : j = i
  · subst hj
    rw [List.getD_eq_getElem?_getD, List.getD_eq_getElem?_getD, listModify_getElem?_self]
    cases l[j]? <;> rfl
  · rw [List.getD_eq_getElem?_getD, List.getD_eq_getElem?_getD,
      listModify_getElem?_ne _ _ _ _ hj]

/-- The publish block adds `len` to the sender's incoming counter in both
broadcast forms (the fan-out either skips the sender or only touches its
outgoing counter). -/
theorem publish_senderIncoming (st : SeqState) (pos mt sid : Nat) (p : Payload)
    (len : Nat) (pm : Int) (hpm : pm = 1 ∨ pm = 3) (hpos : pos < st.clients.length) :
    senderIncoming (publishBlock st pos mt sid p len pm) pos sid
      = senderIncoming st pos sid + len := by
  have hgt : pm > 0 := by rcases hpm with rfl | rfl <;> decide
  unfold publishBlock
  rw [if_pos hgt, if_pos hpm]
  unfold senderIncoming
  simp only [List.getD_eq_getElem?_getD]
  rw [mapIdx0_getElem?, listModify_getElem?_self, List.getElem?_eq_getElem hpos]
  simp only [Option.map_some', Option.getD_some]
  split_ifs with hc
  · dsimp only
    rw [mapGetD_mapUpd, mapGetD_mapUpd]
  · dsimp only
    rw [mapGetD_mapUpd]

/-- A leading character other than `'!'` falsifies a `'!'`-prefixed
`strncmp` guard. -/
theorem strHasPrefix_bang_false (s p : String) (c : Char) (t : List Char)
    (hp : p.data = c :: t) (h : strFirstIs s c = false) :
    strHasPrefix s p = false := by
  unfold strHasPrefix
  rw [hp]
  unfold strFirstIs at h
  cases hs : s.data with
  | nil => rfl
  | cons a t2 =>
    rw [hs] at h
    have hne : a ≠ c := by simpa using h
    simp only [List.isPrefixOf]
    rw [Bool.and_eq_false_iff]
    left
    exact beq_eq_false_iff_ne.mpr (fun hca => hne hca.symm)

theorem chatCommands_not_bang (st : SeqState) (pos uid : Nat) (data : String)
    (h : strFirstIs data '!' = false) :
    chatCommands st pos uid data = st := by
  have hver : ¬ data = "!version" := by
    intro heq
    rw [heq] at h
    exact absurd h (by decide)
  have hlist : ¬ data = "!list" := by
    intro heq
    rw [heq] at h
    exact absurd h (by decide)
  have hbans : ¬ strHasPrefix data "!bans" = true := by
    rw [strHasPrefix_bang_false data "!bans" '!' _ rfl h]
    exact Bool.false_ne_true
  have hunban : ¬ (strHasPrefix data "!unban" = true ∧ data.data.length > 7) := by
    rintro ⟨h1, -⟩
    rw [strHasPrefix_bang_false data "!unban" '!' _ rfl h] at h1
    exact Bool.false_ne_true h1
  have hban : ¬ (strHasPrefix data "!ban " = true ∧ data.data.length > 5) := by
    rintro ⟨h1, -⟩
    rw [strHasPrefix_bang_false data "!ban " '!' _ rfl h] at h1
    exact Bool.false_ne_true h1
  have hkick : ¬ (strHasPrefix data "!kick " = true ∧ data.data.length > 6) := by
    rintro ⟨h1, -⟩
    rw [strHasPrefix_bang_false data "!kick " '!' _ rfl h] at h1
    exact Bool.false_ne_true h1
  unfold chatCommands cmdKick cmdBan cmdUnban cmdBans cmdList cmdVersion
  rw [if_neg hkick, if_neg hban, if_neg hunban, if_neg hbans, if_neg hlist, if_neg hver]

theorem senderIncoming_clients_position (st : SeqState) (i : Nat) (v : Vector3)
    (j sid : Nat) :
    senderIncoming { st with clients := (listModify st.clients i
      (fun c => { c with position := v })) } j sid = senderIncoming st j sid := by
  unfold senderIncoming
  dsimp only
  rw [traffic_getD_listModify_position]

theorem senderIncoming_clients_queue (st : SeqState) (i : Nat) (M : OutMessage)
    (j sid : Nat) :
    senderIncoming { st with clients := (listModify st.clients i
      (fun c => { c with queue := c.queue ++ [M] })) } j sid = senderIncoming st j sid := by
  unfold senderIncoming
  dsimp only
  rw [traffic_getD_listModify_queue]

/-- Storing a registration zeroes the per-stream counters of that stream. -/
theorem senderIncoming_after_reg (st : SeqState) (pos sid : Nat)
    (R : stream_register_t) (hlt : pos < st.clients.length) :
    senderIncoming { st with clients := (listModify st.clients pos (fun c =>
      { c with streams := (mapSet c.streams sid R),
               streams_traffic := (mapUpd c.streams_traffic sid stream_traffic_t.zero
                 (fun _ => stream_traffic_t.zero)) })) } pos sid = 0 := by
  unfold senderIncoming
  dsimp only
  rw [List.getD_eq_getElem?_getD, listModify_getElem?_self, List.getElem?_eq_getElem hlt]
  simp only [Option.map_some', Option.getD_some]
  rw [mapGetD_mapUpd]
  rfl

/-- With no script attached, a chat line not starting with `'!'` runs no
command handler: the branch keeps publish mode 3 and only appends the
history record. -/
theorem chatBranch_none_not_bang (st : SeqState) (pos uid : Nat) (data ts : String)
    (h : strFirstIs data '!' = false) :
    chatBranch none st pos uid data ts =
      (3, { st with chathistory := (chatHistoryPush st.chathistory
        ⟨ts, (st.clients.getD pos cnull).nickname,
         (st.clients.getD pos cnull).uid, data⟩) }) := by
  unfold chatBranch
  dsimp only
  rw [if_neg (by rw [h]; exact Bool.false_ne_true), chatCommands_not_bang st pos uid data h]

/-- C2 (counterexample): dispatching 501 plain CHAT frames from a present
sender leaves 501 records in the history — the claimed bound of 500 is
exceeded. -/
theorem chat_history_exceeds_500 :
    ¬ (runFrames none stTwo (List.replicate 501 chatHi)).chathistory.length ≤ 500 := by
  intro hcon
  have hrel := runFrames_chathistory_rel none (List.replicate 501 chatHi) stTwo (by decide)
  have hlen : (chatLogOfRun none stTwo (List.replicate 501 chatHi)).length = 501 :=
    chatLog_replicate_hi_length 501 stTwo (by decide)
  rw [hrel, List.length_drop, List.length_append] at hcon
  have h0len : stTwo.chathistory.length = 0 := rfl
  rw [h0len, hlen] at hcon
  omega

/-- Instance of `colour_assignment_least_free` on `stTwo` (colours 0 and
1 taken, so colour 2 is assigned) and the demonstration trace. -/
theorem colour_assignment_least_free_witness :
    (getFreePlayerColour stTwo.clients ∉ stTwo.clients.map client_t.colournumber ∧
      1 ∈ stTwo.clients.map client_t.colournumber) ∧
    (((createClient 3 none stTwo "carol" "tok3" "9.9.9.9" true).state.clients.getD
        2 cnull).colournumber) = getFreePlayerColour stTwo.clients ∧
    (((runEvents 3 none initState evsDemo).clients.map client_t.colournumber)).Nodup :=
  ⟨⟨(colour_assignment_least_free.1 stTwo.clients).1,
    (colour_assignment_least_free.1 stTwo.clients).2 1 (by decide)⟩,
   colour_assignment_least_free.2.1 3 none stTwo "carol" "tok3" "9.9.9.9"
     (by decide) (by decide),
   colour_assignment_least_free.2.2 3 none evsDemo⟩

/-- C3 (amended): dispatch adds the frame length to the sender's per-stream
`bytes_in` only on the published paths, not on every frame: a USE_VEHICLE
frame is a complete no-op on the state and a PRIVCHAT frame never touches
any incoming counter, while VEHICLE_DATA, STREAM_REGISTER and plain CHAT
frames from a present sender do accumulate it (STREAM_REGISTER resets the
stream's counters before accounting, so the counter ends at exactly the
frame length). -/
theorem bytes_in_only_when_published :
    (∀ (script : Option (Nat → String → Int)) (st : SeqState) (uid sid : Nat)
       (p : Payload) (len : Nat) (ts : String),
      queueMessage script st uid MSG2_USE_VEHICLE sid p len ts = st) ∧
    (∀ (script : Option (Nat → String → Int)) (st : SeqState) (uid sid : Nat)
       (p : Payload) (len : Nat) (ts : String) (j sid' : Nat),
      senderIncoming (queueMessage script st uid MSG2_PRIVCHAT sid p len ts) j sid'
        = senderIncoming st j sid') ∧
    (∀ (script : Option (Nat → String → Int)) (st : SeqState) (uid sid : Nat)
       (p : Payload) (len : Nat) (ts : String) (pos : Nat),
      getPosfromUid st.clients uid = some pos →
      senderIncoming (queueMessage script st uid MSG2_VEHICLE_DATA sid p len ts) pos sid
        = senderIncoming st pos sid + len) ∧
    (∀ (script : Option (Nat → String → Int)) (st : SeqState) (uid sid : Nat)
       (reg : stream_register_t) (len : Nat) (ts : String) (pos : Nat),
      getPosfromUid st.clients uid = some pos →
      senderIncoming
          (queueMessage script st uid MSG2_STREAM_REGISTER sid (Payload.reg reg) len ts)
          pos sid = len) ∧
    (∀ (st : SeqState) (uid sid : Nat) (data : String) (len : Nat) (ts : String)
       (pos : Nat),
      getPosfromUid st.clients uid = some pos →
      strFirstIs data '!' = false →
      senderIncoming (queueMessage none st uid MSG2_CHAT sid (Payload.str data) len ts)
          pos sid = senderIncoming st pos sid + len) := by
  refine ⟨?_, ?_, ?_, ?_, ?_⟩
  · intro script st uid sid p len ts
    cases hp : getPosfromUid st.clients uid with
    | none => simp only [queueMessage, hp]
    | some pos =>
      simp only [queueMessage, hp]
      rw [classify_use_vehicle]
      exact publishBlock_zero st pos MSG2_USE_VEHICLE sid p len
  · intro script st uid sid p len ts j sid'
    cases hp : getPosfromUid st.clients uid with
    | none => simp only [queueMessage, hp]
    | some pos =>
      simp only [queueMessage, hp]
      rw [classify_privchat]
      dsimp only
      rw [publishBlock_zero]
      cases p <;> first
        | rfl
        | (dsimp only
           rename_i d t
           cases hd : getPosfromUidInt st.clients d with
           | none => rfl
           | some dp => exact senderIncoming_clients_queue st dp _ j sid')
  · intro script st uid sid p len ts pos hp
    have hlt : pos < st.clients.length := findPos_some_lt _ st.clients pos hp
    simp only [queueMessage, hp]
    rw [classify_vehicle_data]
    dsimp only
    cases p
    case vpos v rest =>
      refine Eq.trans
        (publish_senderIncoming _ pos MSG2_VEHICLE_DATA sid (Payload.vpos v rest)
          len 1 (Or.inl rfl) ?_) ?_
      · dsimp only
        rw [listModify_length]
        exact hlt
      · rw [senderIncoming_clients_position]
    all_goals
      exact publish_senderIncoming st pos MSG2_VEHICLE_DATA sid _ len 1 (Or.inl rfl) hlt
  · intro script st uid sid reg len ts pos hp
    have hlt : pos < st.clients.length := findPos_some_lt _ st.clients pos hp
    simp only [queueMessage, hp]
    rw [classify_stream_register]
    dsimp only
    refine Eq.trans
      (publish_senderIncoming _ pos MSG2_STREAM_REGISTER sid _ len 1 (Or.inl rfl) ?_) ?_
    · dsimp only
      rw [listModify_length]
      exact hlt
    · rw [senderIncoming_after_reg st pos sid _ hlt]
      omega
  · intro st uid sid data len ts pos hp h
    have hlt : pos < st.clients.length := findPos_some_lt _ st.clients pos hp
    simp only [queueMessage, hp]
    rw [classify_chat_str, chatBranch_none_not_bang st pos uid data ts h]
    dsimp only
    refine Eq.trans
      (publish_senderIncoming _ pos MSG2_CHAT sid (Payload.str data) len 3
        (Or.inr rfl) ?_) ?_
    · exact hlt
    · rfl

/-- Instance of `bytes_in_only_when_published` on the two-client state:
the sender is uid 2 at table position 1. -/
theorem bytes_in_only_when_published_witness :
    (getPosfromUid stTwo.clients 2 = some 1 ∧ strFirstIs "hello" '!' = false) ∧
    queueMessage none stTwo 2 MSG2_USE_VEHICLE 0 (Payload.raw []) 7 "t" = stTwo ∧
    senderIncoming (queueMessage none stTwo 2 MSG2_PRIVCHAT 0 (Payload.priv 1 "x") 9 "t")
        1 0 = senderIncoming stTwo 1 0 ∧
    senderIncoming
        (queueMessage none stTwo 2 MSG2_VEHICLE_DATA 0 (Payload.vpos ⟨1, 2, 3⟩ []) 40 "t")
        1 0 = senderIncoming stTwo 1 0 + 40 ∧
    senderIncoming
        (queueMessage none stTwo 2 MSG2_STREAM_REGISTER 0 (Payload.reg regBlank) 88 "t")
        1 0 = 88 ∧
    senderIncoming (queueMessage none stTwo 2 MSG2_CHAT 0 (Payload.str "hello") 12 "t")
        1 0 = senderIncoming stTwo 1 0 + 12 :=
  ⟨⟨by decide, by decide⟩,
   bytes_in_only_when_published.1 none stTwo 2 0 (Payload.raw []) 7 "t",
   bytes_in_only_when_published.2.1 none stTwo 2 0 (Payload.priv 1 "x") 9 "t" 1 0,
   bytes_in_only_when_published.2.2.1 none stTwo 2 0 (Payload.vpos ⟨1, 2, 3⟩ []) 40 "t"
     1 (by decide),
   bytes_in_only_when_published.2.2.2.1 none stTwo 2 0 regBlank 88 "t" 1 (by decide),
   bytes_in_only_when_published.2.2.2.2 stTwo 2 0 "hello" 12 "t" 1 (by decide) (by decide)⟩

end RoR
